import Mathlib

/-!
Shallow embedding of the las-kml-to-stl pipeline (height-map aggregation,
boolean masks, STL mesh generation) together with proofs about it.

Modelling conventions:
* machine floats (`f64`, `f32`) are modelled as exact rationals `ℚ`;
* machine integers are modelled as `ℕ` / `ℤ`, with explicit two's-complement
  wrapping (`wrap16`, `usizeOfInt`) at the spots where the Rust release-build
  semantics wraps;
* a Rust function returning `Result` becomes `Except LasToStlError _`, an
  in-place mutation returns the updated value, and a reachable panic is an
  `Option` with `none` for the panic;
* `Vec` reads that are proved in range are embedded with `List.getD`,
  `Vec` writes with `List.set`.
-/

namespace LasKml

/-- Two's-complement wrap of an integer into the `i16` range. -/
def wrap16 (v : ℤ) : ℤ := (v + 2 ^ 15) % 2 ^ 16 - 2 ^ 15

/-- Cast of an integer (an `i64`/`isize` value in the source) to `usize`:
reduce modulo `2^64`. -/
def usizeOfInt (v : ℤ) : ℕ := (v % 2 ^ 64).toNat

/-- Rust `as usize` cast of an `f64`: truncate toward zero, saturating at `0`
below and at `usize::MAX` above. -/
def f64ToUsize (q : ℚ) : ℕ := if q ≤ 0 then 0 else min (Int.toNat ⌊q⌋) (2 ^ 64 - 1)

/-- utm_bounds.rs: bounds for 3d space in UTM form. -/
structure UtmBoundingBox where
  min_x : ℚ
  max_x : ℚ
  min_y : ℚ
  max_y : ℚ
  min_z : ℚ
  max_z : ℚ
deriving DecidableEq, Repr

/-- utm_bounds.rs `x_range`. -/
def UtmBoundingBox.x_range (b : UtmBoundingBox) : ℚ := b.max_x - b.min_x

/-- utm_bounds.rs `y_range`. -/
def UtmBoundingBox.y_range (b : UtmBoundingBox) : ℚ := b.max_y - b.min_y

/-- utm_bounds.rs `z_range`. -/
def UtmBoundingBox.z_range (b : UtmBoundingBox) : ℚ := b.max_z - b.min_z

/-- errors.rs: the error variants reachable in the modelled code.  The
`MaskBoundMismatchError` fields follow the declaration in errors.rs
(`other_*` first, then `mask_*`). -/
inductive LasToStlError where
  | BadIndexError (x_res y_res x y : ℕ)
  | SetWithDeltaError (x_res y_res x y : ℕ)
  | GetByXyCheckedError (x_res y_res : ℕ) (x y : ℤ)
  | PolygonOutOfBoundsError (x_res y_res x y : ℕ)
  | MaskBoundMismatchError (other_x_res other_y_res mask_x_res mask_y_res : ℕ)
      (other_bounds mask_bounds : UtmBoundingBox)
  | StlSideFaceGenerationError
deriving DecidableEq, Repr

/-- A LAS point sample (the `x`, `y`, `z` fields of `las::Point` that the
aggregator reads). -/
structure Point where
  x : ℚ
  y : ℚ
  z : ℚ
deriving DecidableEq, Repr

/-- utm_point.rs `UtmCoord`. -/
structure UtmCoord where
  northing : ℚ
  easting : ℚ
deriving DecidableEq, Repr

/-- utm_point.rs `UtmCoord::get_x_y_coords`. -/
def UtmCoord.get_x_y_coords (c : UtmCoord) (x_offset y_offset x_tick y_tick : ℚ) : ℕ × ℕ :=
  (f64ToUsize ((c.easting - x_offset) / x_tick), f64ToUsize ((c.northing - y_offset) / y_tick))

/-- height_map.rs `PointAggregate`: a sum and counter per grid cell. -/
structure PointAggregate where
  point_sum : ℚ
  num_points : ℕ
deriving DecidableEq, Repr

/-- height_map.rs `PointAggregate::default`. -/
def PointAggregate.dflt : PointAggregate := { point_sum := 0, num_points := 0 }

/-- height_map.rs `PointAggregate::add_sample`.  `num_points` is a `u16` in the
source; the increment wraps modulo `2^16` (release-build semantics). -/
def PointAggregate.add_sample (p : PointAggregate) (new_height : ℚ) : PointAggregate :=
  { point_sum := p.point_sum + new_height, num_points := (p.num_points + 1) % 2 ^ 16 }

/-- height_map.rs `PointAggregate::get_average_or_default`. -/
def PointAggregate.get_average_or_default (p : PointAggregate) (dflt : ℚ) : ℚ :=
  if p.num_points = 0 then dflt else p.point_sum / (p.num_points : ℚ)

/-- height_map.rs `HeightMapIntermediate`. -/
structure HeightMapIntermediate where
  data : List PointAggregate
  x_res : ℕ
  y_res : ℕ
  x_tick : ℚ
  y_tick : ℚ
  x_offset : ℚ
  y_offset : ℚ
  bounds : UtmBoundingBox
deriving DecidableEq, Repr

/-- height_map.rs `HeightMapIntermediate::new`. -/
def HeightMapIntermediate.new (x_res y_res : ℕ) (utm_bounds : UtmBoundingBox) :
    HeightMapIntermediate :=
  { data := List.replicate (x_res * y_res) PointAggregate.dflt
    x_res := x_res
    y_res := y_res
    x_tick := utm_bounds.x_range / ((x_res - 1 : ℕ) : ℚ)
    y_tick := utm_bounds.y_range / ((y_res - 1 : ℕ) : ℚ)
    x_offset := utm_bounds.min_x
    y_offset := utm_bounds.min_y
    bounds := utm_bounds }

/-- height_map.rs `HeightMapIntermediate::add_point_unchecked`: no bounds
check; the inverted row index is computed with wrapping `usize` arithmetic and
used to index `data` directly.  An out-of-range index panics, modelled as
`none`. -/
def HeightMapIntermediate.add_point_unchecked (h : HeightMapIntermediate) (new_point : Point) :
    Option HeightMapIntermediate :=
  let new_height : ℚ := new_point.z
  let x : ℕ := f64ToUsize ((new_point.x - h.x_offset) / h.x_tick)
  let y : ℕ := f64ToUsize ((new_point.y - h.y_offset) / h.y_tick)
  let inverted_y_index : ℕ := usizeOfInt ((((h.y_res : ℤ) - y - 1) * h.x_res) + x)
  if inverted_y_index < h.data.length then
    some { h with data := (h.data.set inverted_y_index
            ((h.data.getD inverted_y_index PointAggregate.dflt).add_sample new_height)) }
  else
    none

/-- height_map.rs `HeightMapIntermediate::add_point`: the checked variant,
which only accumulates when `x < x_res && y < y_res`. -/
def HeightMapIntermediate.add_point (h : HeightMapIntermediate) (new_point : Point) :
    HeightMapIntermediate :=
  let new_height : ℚ := new_point.z
  let x : ℕ := f64ToUsize ((new_point.x - h.x_offset) / h.x_tick)
  let y : ℕ := f64ToUsize ((new_point.y - h.y_offset) / h.y_tick)
  if x < h.x_res ∧ y < h.y_res then
    let inverted_y_index : ℕ := (h.y_res - y - 1) * h.x_res + x
    { h with data := (h.data.set inverted_y_index
        ((h.data.getD inverted_y_index PointAggregate.dflt).add_sample new_height)) }
  else
    h

/-- height_map.rs `HeightMap`. -/
structure HeightMap where
  data : List ℚ
  x_res : ℕ
  y_res : ℕ
  bounds : UtmBoundingBox
deriving DecidableEq, Repr

/-- height_map.rs `impl From<HeightMapIntermediate> for HeightMap`. -/
def HeightMap.fromIntermediate (height_map_intermediate : HeightMapIntermediate) : HeightMap :=
  { data := height_map_intermediate.data.map
      (fun p => p.get_average_or_default height_map_intermediate.bounds.min_z)
    x_res := height_map_intermediate.x_res
    y_res := height_map_intermediate.y_res
    bounds := height_map_intermediate.bounds }

/-! ### C1: out-of-range samples during ingestion -/

/-- Bounds used in the C1 instances: `x_tick = 1`, `y_tick = 1`. -/
def c1Box : UtmBoundingBox := ⟨0, 3, 0, 1, 0, 10⟩

/-- A fresh 4×2 aggregator over `c1Box`. -/
def c1Hmi : HeightMapIntermediate := HeightMapIntermediate.new 4 2 c1Box

/-- A sample whose cell coordinates are `(5, 1)`: `cx = 5 ≥ x_res = 4`. -/
def c1Point : Point := ⟨5, 1, 7⟩

/-- Evaluation of the cell x-coordinate of `c1Point` in `c1Hmi`. -/
lemma c1_cell_x : f64ToUsize ((c1Point.x - c1Hmi.x_offset) / c1Hmi.x_tick) = 5 := by
  norm_num [c1Point, c1Hmi, c1Box, HeightMapIntermediate.new, UtmBoundingBox.x_range,
    f64ToUsize]
  rfl

/-- Evaluation of `add_point_unchecked` on the out-of-range sample `c1Point`:
the sample lands in the unrelated in-range cell of flat index 5. -/
lemma c1_eval : c1Hmi.add_point_unchecked c1Point =
    some { c1Hmi with data :=
      (c1Hmi.data.set 5 (PointAggregate.add_sample PointAggregate.dflt 7)) } := by
  simp only [HeightMapIntermediate.add_point_unchecked, c1Hmi, c1Point, c1Box,
    HeightMapIntermediate.new, UtmBoundingBox.x_range, UtmBoundingBox.y_range]
  norm_num [f64ToUsize, usizeOfInt, PointAggregate.dflt]
  rfl

/-- C1 counterexample: for the 4×2 aggregator `c1Hmi` and the sample `c1Point`
whose computed cell x-coordinate `5` falls outside the grid (`5 ≥ x_res = 4`),
`add_point_unchecked` (the function `glob_get_height_map` invokes) does NOT
leave the aggregator unchanged: the sample is accumulated into the unrelated
in-range cell at flat index 5. -/
theorem C1_counterexample :
    c1Hmi.x_res ≤ f64ToUsize ((c1Point.x - c1Hmi.x_offset) / c1Hmi.x_tick) ∧
    c1Hmi.add_point_unchecked c1Point ≠ some c1Hmi ∧
    (c1Hmi.add_point_unchecked c1Point).map
      (fun g => (g.data.getD 5 PointAggregate.dflt).num_points) = some 1 := by
  refine ⟨by rw [c1_cell_x]; decide, ?_, by rw [c1_eval]; decide⟩
  rw [c1_eval]
  intro h
  exact absurd
    (congrArg (Option.map (fun g => (g.data.getD 5 PointAggregate.dflt).num_points)) h)
    (by decide)

/-- C1 (amended): it is the checked variant `add_point` that silently discards
a sample whose computed cell coordinates fall outside the grid, leaving the
aggregator state unchanged and raising no error. -/
theorem C1_add_point_out_of_range_discards (h : HeightMapIntermediate) (p : Point)
    (hout : h.x_res ≤ f64ToUsize ((p.x - h.x_offset) / h.x_tick) ∨
      h.y_res ≤ f64ToUsize ((p.y - h.y_offset) / h.y_tick)) :
    h.add_point p = h := by
  have hcond : ¬ (f64ToUsize ((p.x - h.x_offset) / h.x_tick) < h.x_res ∧
      f64ToUsize ((p.y - h.y_offset) / h.y_tick) < h.y_res) := by omega
  simp [HeightMapIntermediate.add_point, hcond]

/-- Witness for C1: the amended theorem applied to the concrete out-of-range
sample `c1Point`. -/
theorem C1_add_point_out_of_range_discards_witness :
    (c1Hmi.x_res ≤ f64ToUsize ((c1Point.x - c1Hmi.x_offset) / c1Hmi.x_tick) ∨
      c1Hmi.y_res ≤ f64ToUsize ((c1Point.y - c1Hmi.y_offset) / c1Hmi.y_tick)) ∧
    c1Hmi.add_point c1Point = c1Hmi :=
  ⟨Or.inl (by rw [c1_cell_x]; decide),
    C1_add_point_out_of_range_discards c1Hmi c1Point (Or.inl (by rw [c1_cell_x]; decide))⟩

/-! ### C4: finalization of the aggregator -/

/-- C4: finalizing a grid aggregator into a height grid maps every cell to
`sum / count` when `count > 0` and to `bounds.min_z` when `count = 0`, while
carrying over `x_res`, `y_res` and `bounds` unchanged. -/
theorem C4_finalize_average_or_default (h : HeightMapIntermediate) (i : ℕ)
    (hi : i < h.data.length) :
    (HeightMap.fromIntermediate h).x_res = h.x_res ∧
    (HeightMap.fromIntermediate h).y_res = h.y_res ∧
    (HeightMap.fromIntermediate h).bounds = h.bounds ∧
    (HeightMap.fromIntermediate h).data.length = h.data.length ∧
    (HeightMap.fromIntermediate h).data.getD i 0 =
      (if (h.data.getD i PointAggregate.dflt).num_points = 0 then h.bounds.min_z
       else (h.data.getD i PointAggregate.dflt).point_sum /
         ((h.data.getD i PointAggregate.dflt).num_points : ℚ)) := by
  refine ⟨rfl, rfl, rfl, by simp [HeightMap.fromIntermediate], ?_⟩
  rw [List.getD_eq_getElem?_getD, List.getD_eq_getElem?_getD]
  simp [HeightMap.fromIntermediate, List.getElem?_map, List.getElem?_eq_getElem hi]
  rfl

/-- Aggregator instance for the C4 witness: cell 0 holds two samples summing
to 10, cell 1 holds no sample. -/
def c4Hmi : HeightMapIntermediate :=
  { data := [⟨10, 2⟩, ⟨5, 0⟩]
    x_res := 2
    y_res := 1
    x_tick := 1
    y_tick := 1
    x_offset := 0
    y_offset := 0
    bounds := c1Box }

/-- Witness for C4: the theorem applied to `c4Hmi` at cell 0. -/
theorem C4_finalize_average_or_default_witness :
    0 < c4Hmi.data.length ∧
    ((HeightMap.fromIntermediate c4Hmi).x_res = c4Hmi.x_res ∧
     (HeightMap.fromIntermediate c4Hmi).y_res = c4Hmi.y_res ∧
     (HeightMap.fromIntermediate c4Hmi).bounds = c4Hmi.bounds ∧
     (HeightMap.fromIntermediate c4Hmi).data.length = c4Hmi.data.length ∧
     (HeightMap.fromIntermediate c4Hmi).data.getD 0 0 =
       (if (c4Hmi.data.getD 0 PointAggregate.dflt).num_points = 0 then c4Hmi.bounds.min_z
        else (c4Hmi.data.getD 0 PointAggregate.dflt).point_sum /
          ((c4Hmi.data.getD 0 PointAggregate.dflt).num_points : ℚ))) :=
  ⟨by decide, C4_finalize_average_or_default c4Hmi 0 (by decide)⟩

/-! ### utils.rs -/

/-- utils.rs `x_y_to_index`. -/
def x_y_to_index (x_res y_res x y : ℕ) : Except LasToStlError ℕ :=
  if x < x_res ∧ y < y_res then
    Except.ok (y * x_res + x)
  else
    Except.error (LasToStlError.BadIndexError x_res y_res x y)

/-- The boundary-inclusive integer range of the Rust loop `lo..=hi`. -/
def intRangeIncl (lo hi : ℤ) : List ℤ :=
  if lo ≤ hi then (List.range (hi - lo + 1).toNat).map (fun (i : ℕ) => lo + (i : ℤ)) else []

/-- utils.rs `get_point_deltas_within_radius`.  `radius` is a `u16`; the body
works in `i16` arithmetic, which wraps (release-build semantics), modelled by
`wrap16` on each squaring, on the sum of squares, and on `r² + 1`. -/
def get_point_deltas_within_radius (radius : ℕ) : List (ℤ × ℤ) :=
  let signed_radius : ℤ := wrap16 radius
  let radius_squared_plus_one : ℤ := wrap16 (wrap16 (signed_radius * signed_radius) + 1)
  (intRangeIncl (-signed_radius) signed_radius).flatMap (fun x =>
    (intRangeIncl (-signed_radius) signed_radius).filterMap (fun y =>
      if wrap16 (wrap16 (x * x) + wrap16 (y * y)) < radius_squared_plus_one then
        some (x, y)
      else
        none))

lemma mem_intRangeIncl {lo hi a : ℤ} : a ∈ intRangeIncl lo hi ↔ lo ≤ a ∧ a ≤ hi := by
  unfold intRangeIncl
  by_cases h : lo ≤ hi
  · rw [if_pos h]
    constructor
    · intro hmem
      rw [List.mem_map] at hmem
      obtain ⟨i, hir, he⟩ := hmem
      rw [List.mem_range] at hir
      have e1 : ((hi - lo + 1).toNat : ℤ) = hi - lo + 1 := Int.toNat_of_nonneg (by omega)
      omega
    · rintro ⟨h1, h2⟩
      rw [List.mem_map]
      have e1 : ((hi - lo + 1).toNat : ℤ) = hi - lo + 1 := Int.toNat_of_nonneg (by omega)
      have e2 : ((a - lo).toNat : ℤ) = a - lo := Int.toNat_of_nonneg (by omega)
      exact ⟨(a - lo).toNat, by rw [List.mem_range]; omega, by omega⟩
  · rw [if_neg h]
    simp only [List.not_mem_nil, false_iff]
    omega

lemma wrap16_eq_self {v : ℤ} (h1 : -2 ^ 15 ≤ v) (h2 : v < 2 ^ 15) : wrap16 v = v := by
  unfold wrap16
  omega

set_option maxHeartbeats 1000000 in
/-- C8: at `radius = 128` the returned shape is wrong: the offset `(128, 128)`
is included although its squared distance `32768` exceeds `r² = 16384`,
because `x² + y²` overflows `i16` and wraps negative.  The second conjunct
records the boundary violation; the third records that the function is correct
on the claim's `r = 0` instance; the fourth proves the claim's disc
characterization for every radius up to 127, where no `i16` overflow can
occur. -/
theorem C8_disk_shape_overflow :
    (((128 : ℤ), (128 : ℤ)) ∈ get_point_deltas_within_radius 128 ∧
     (128 : ℤ) * 128 + 128 * 128 > (128 : ℤ) * 128 ∧
     get_point_deltas_within_radius 0 = [(0, 0)]) ∧
    (∀ r : ℕ, r ≤ 127 → ∀ dx dy : ℤ,
      ((dx, dy) ∈ get_point_deltas_within_radius r ↔
        dx * dx + dy * dy ≤ (r : ℤ) * r)) := by
  constructor
  · refine ⟨?_, by norm_num, by decide⟩
    unfold get_point_deltas_within_radius
    rw [List.mem_flatMap]
    refine ⟨128, ?_, ?_⟩
    · rw [mem_intRangeIncl]
      constructor <;> decide
    · rw [List.mem_filterMap]
      refine ⟨128, ?_, ?_⟩
      · rw [mem_intRangeIncl]
        constructor <;> decide
      · decide
  · intro r hr dx dy
    have hr0 : (0 : ℤ) ≤ (r : ℤ) := Int.natCast_nonneg r
    have hrz : (r : ℤ) ≤ 127 := by exact_mod_cast hr
    have hrr : (r : ℤ) * r ≤ 16129 := by nlinarith
    have hw1 : wrap16 (r : ℤ) = (r : ℤ) := wrap16_eq_self (by omega) (by omega)
    have hwsq : wrap16 ((r : ℤ) * r) = (r : ℤ) * r :=
      wrap16_eq_self (by nlinarith) (by nlinarith)
    have hwsq1 : wrap16 ((r : ℤ) * r + 1) = (r : ℤ) * r + 1 :=
      wrap16_eq_self (by nlinarith) (by nlinarith)
    simp only [get_point_deltas_within_radius, hw1, hwsq, hwsq1]
    rw [List.mem_flatMap]
    constructor
    · rintro ⟨x, hx, hmem⟩
      rw [mem_intRangeIncl] at hx
      rw [List.mem_filterMap] at hmem
      obtain ⟨y, hy, hcond⟩ := hmem
      rw [mem_intRangeIncl] at hy
      by_cases hc : wrap16 (wrap16 (x * x) + wrap16 (y * y)) < (r : ℤ) * r + 1
      · rw [if_pos hc] at hcond
        have hxy := Option.some.inj hcond
        obtain ⟨rfl, rfl⟩ : x = dx ∧ y = dy :=
          ⟨congrArg Prod.fst hxy, congrArg Prod.snd hxy⟩
        have hxx : x * x ≤ 16129 := by nlinarith [hx.1, hx.2]
        have hyy : y * y ≤ 16129 := by nlinarith [hy.1, hy.2]
        have hx2 : wrap16 (x * x) = x * x :=
          wrap16_eq_self (by nlinarith [mul_self_nonneg x]) (by nlinarith)
        have hy2 : wrap16 (y * y) = y * y :=
          wrap16_eq_self (by nlinarith [mul_self_nonneg y]) (by nlinarith)
        rw [hx2, hy2] at hc
        have hs : wrap16 (x * x + y * y) = x * x + y * y :=
          wrap16_eq_self (by nlinarith [mul_self_nonneg x, mul_self_nonneg y])
            (by nlinarith)
        rw [hs] at hc
        omega
      · rw [if_neg hc] at hcond
        exact absurd hcond (by simp)
    · intro hle
      have hxb1 : -(r : ℤ) ≤ dx := by
        nlinarith [mul_self_nonneg dy, mul_self_nonneg (dx + r)]
      have hxb2 : dx ≤ (r : ℤ) := by
        nlinarith [mul_self_nonneg dy, mul_self_nonneg (dx - r)]
      have hyb1 : -(r : ℤ) ≤ dy := by
        nlinarith [mul_self_nonneg dx, mul_self_nonneg (dy + r)]
      have hyb2 : dy ≤ (r : ℤ) := by
        nlinarith [mul_self_nonneg dx, mul_self_nonneg (dy - r)]
      have hxx : dx * dx ≤ 16129 := by nlinarith
      have hyy : dy * dy ≤ 16129 := by nlinarith
      have hx2 : wrap16 (dx * dx) = dx * dx :=
        wrap16_eq_self (by nlinarith [mul_self_nonneg dx]) (by nlinarith)
      have hy2 : wrap16 (dy * dy) = dy * dy :=
        wrap16_eq_self (by nlinarith [mul_self_nonneg dy]) (by nlinarith)
      have hs : wrap16 (dx * dx + dy * dy) = dx * dx + dy * dy :=
        wrap16_eq_self (by nlinarith [mul_self_nonneg dx, mul_self_nonneg dy])
          (by nlinarith)
      refine ⟨dx, ?_, ?_⟩
      · rw [mem_intRangeIncl]
        exact ⟨hxb1, hxb2⟩
      · rw [List.mem_filterMap]
        refine ⟨dy, ?_, ?_⟩
        · rw [mem_intRangeIncl]
          exact ⟨hyb1, hyb2⟩
        · rw [hx2, hy2, hs, if_pos (by omega)]

/-- Witness for C8's disc characterization at the concrete radius 1. -/
theorem C8_disk_shape_overflow_witness :
    (1 : ℕ) ≤ 127 ∧
    (((0 : ℤ), (1 : ℤ)) ∈ get_point_deltas_within_radius 1 ↔
      (0 : ℤ) * 0 + 1 * 1 ≤ (1 : ℤ) * 1) :=
  ⟨by decide, C8_disk_shape_overflow.2 1 (by decide) 0 1⟩

/-! ### mask.rs -/

/-- mask.rs `Mask`: a boolean mask over the same grid space as a heightmap. -/
structure Mask where
  data : List Bool
  x_res : ℕ
  y_res : ℕ
  x_tick : ℚ
  y_tick : ℚ
  bounds : UtmBoundingBox
deriving DecidableEq, Repr

/-- mask.rs `Mask::new_with_dims`. -/
def Mask.new_with_dims (x_res y_res : ℕ) (bounds : UtmBoundingBox) : Mask :=
  { data := List.replicate (x_res * y_res) false
    x_res := x_res
    y_res := y_res
    x_tick := bounds.x_range / ((x_res - 1 : ℕ) : ℚ)
    y_tick := bounds.y_range / ((y_res - 1 : ℕ) : ℚ)
    bounds := bounds }

/-- mask.rs `Mask::set_x_y`: bounds-checked single-cell write.  The `ok`
result carries the updated mask; on `error` the mask is untouched. -/
def Mask.set_x_y (m : Mask) (x y : ℕ) (new_state : Bool) : Except LasToStlError Mask :=
  if x < m.x_res ∧ y < m.y_res then
    Except.ok { m with data := m.data.set (y * m.x_res + x) new_state }
  else
    Except.error (LasToStlError.BadIndexError m.x_res m.y_res x y)

/-- The loop body of mask.rs `Mask::set_with_deltas`: one delta is applied via
`set_x_y` to the accumulated mask; a success bumps the success counter and an
error is skipped.  The `(x as i64 + delta as i64) as usize` coordinate
computation is `usizeOfInt`. -/
def set_with_deltas_step (x y : ℕ) (state : Bool) (acc : Mask × ℕ) (d : ℤ × ℤ) : Mask × ℕ :=
  let new_x := usizeOfInt ((x : ℤ) + d.1)
  let new_y := usizeOfInt ((y : ℤ) + d.2)
  match acc.1.set_x_y new_x new_y state with
  | Except.ok m2 => (m2, acc.2 + 1)
  | Except.error _ => acc

/-- mask.rs `Mask::set_with_deltas`: sets every offset cell that is in range,
counting successes; fails with `SetWithDeltaError` exactly when no offset
landed. -/
def Mask.set_with_deltas (m : Mask) (x y : ℕ) (state : Bool) (deltas : List (ℤ × ℤ)) :
    Mask × Option LasToStlError :=
  let r := deltas.foldl (set_with_deltas_step x y state) (m, 0)
  if r.2 = 0 then
    (r.1, some (LasToStlError.SetWithDeltaError r.1.x_res r.1.y_res x y))
  else
    (r.1, none)

/-- mask.rs `Mask::checked_bitor_assign`.  The result pairs the (possibly
updated) receiver with the error, if any. -/
def Mask.checked_bitor_assign (m other_mask : Mask) : Mask × Option LasToStlError :=
  if m.x_res = other_mask.x_res ∧ m.y_res = other_mask.y_res ∧ m.bounds = other_mask.bounds then
    ({ m with data := (m.data.zipWith (fun a b => a || b) other_mask.data) ++
        m.data.drop other_mask.data.length }, none)
  else
    (m, some (LasToStlError.MaskBoundMismatchError other_mask.x_res other_mask.y_res
      m.x_res m.y_res other_mask.bounds m.bounds))

/-- mask.rs `Mask::checked_bitand_assign`. -/
def Mask.checked_bitand_assign (m other_mask : Mask) : Mask × Option LasToStlError :=
  if m.x_res = other_mask.x_res ∧ m.y_res = other_mask.y_res ∧ m.bounds = other_mask.bounds then
    ({ m with data := (m.data.zipWith (fun a b => a && b) other_mask.data) ++
        m.data.drop other_mask.data.length }, none)
  else
    (m, some (LasToStlError.MaskBoundMismatchError other_mask.x_res other_mask.y_res
      m.x_res m.y_res other_mask.bounds m.bounds))

/-- mask.rs `Mask::checked_bitxor_assign`. -/
def Mask.checked_bitxor_assign (m other_mask : Mask) : Mask × Option LasToStlError :=
  if m.x_res = other_mask.x_res ∧ m.y_res = other_mask.y_res ∧ m.bounds = other_mask.bounds then
    ({ m with data := (m.data.zipWith (fun a b => xor a b) other_mask.data) ++
        m.data.drop other_mask.data.length }, none)
  else
    (m, some (LasToStlError.MaskBoundMismatchError other_mask.x_res other_mask.y_res
      m.x_res m.y_res other_mask.bounds m.bounds))

/-- mask.rs `Mask::checked_sub_assign`. -/
def Mask.checked_sub_assign (m other_mask : Mask) : Mask × Option LasToStlError :=
  if m.x_res = other_mask.x_res ∧ m.y_res = other_mask.y_res ∧ m.bounds = other_mask.bounds then
    ({ m with data := (m.data.zipWith (fun a b => a && !b) other_mask.data) ++
        m.data.drop other_mask.data.length }, none)
  else
    (m, some (LasToStlError.MaskBoundMismatchError other_mask.x_res other_mask.y_res
      m.x_res m.y_res other_mask.bounds m.bounds))

/-- mask.rs `impl BitOrAssign for Mask` (the unchecked operator): iterates
over `self.data.iter_mut().zip(other.data.iter())`, i.e. combines the common
prefix of the two data arrays with no validation at all. -/
def Mask.bitor_assign (m other_mask : Mask) : Mask :=
  { m with data := (m.data.zipWith (fun a b => a || b) other_mask.data) ++
      m.data.drop other_mask.data.length }

/-- mask.rs `impl BitAndAssign for Mask` (the unchecked operator). -/
def Mask.bitand_assign (m other_mask : Mask) : Mask :=
  { m with data := (m.data.zipWith (fun a b => a && b) other_mask.data) ++
      m.data.drop other_mask.data.length }

/-- mask.rs `impl BitXorAssign for Mask` (the unchecked operator). -/
def Mask.bitxor_assign (m other_mask : Mask) : Mask :=
  { m with data := (m.data.zipWith (fun a b => xor a b) other_mask.data) ++
      m.data.drop other_mask.data.length }

/-- mask.rs `impl SubAssign for Mask` (the unchecked operator). -/
def Mask.sub_assign (m other_mask : Mask) : Mask :=
  { m with data := (m.data.zipWith (fun a b => a && !b) other_mask.data) ++
      m.data.drop other_mask.data.length }

/-- mask.rs `Mask::invert`. -/
def Mask.invert (m : Mask) : Mask :=
  { m with data := m.data.map (fun p => !p) }

/-- mask.rs `Mask::get_by_xy_unchecked`. -/
def Mask.get_by_xy_unchecked (m : Mask) (x y : ℕ) : Bool :=
  m.data.getD (y * m.x_res + x) false

/-- mask.rs `Mask::get_by_xy_checked`. -/
def Mask.get_by_xy_checked (m : Mask) (x y : ℤ) : Except LasToStlError Bool :=
  if x < (m.x_res : ℤ) ∧ y < (m.y_res : ℤ) ∧ 0 ≤ x ∧ 0 ≤ y then
    Except.ok (m.get_by_xy_unchecked x.toNat y.toNat)
  else
    Except.error (LasToStlError.GetByXyCheckedError m.x_res m.y_res x y)

/-- The constant `MAP` of mask.rs `Mask::get_neighbors`. -/
def neighborMap : List (ℤ × ℤ) :=
  [(-1, 1), (0, 1), (1, 1), (-1, 0), (0, 0), (1, 0), (-1, -1), (0, -1), (1, -1)]

/-- mask.rs `Mask::get_neighbors`: the 3×3 neighborhood, out-of-range cells
reading as `false`. -/
def Mask.get_neighbors (m : Mask) (x y : ℕ) : List Bool :=
  neighborMap.map (fun coord =>
    match m.get_by_xy_checked ((x : ℤ) + coord.1) ((y : ℤ) + coord.2) with
    | Except.ok s => s
    | Except.error _ => false)

/-- mask.rs `Mask::add_utm_point`: stamp one precomputed disk at the cell
coordinates of a UTM coordinate. -/
def Mask.add_utm_point (m : Mask) (utm_coord : UtmCoord) (radius : ℕ) :
    Mask × Option LasToStlError :=
  let deltas := get_point_deltas_within_radius radius
  let xy := utm_coord.get_x_y_coords m.bounds.min_x m.bounds.min_y m.x_tick m.y_tick
  m.set_with_deltas xy.1 xy.2 true deltas

/-- Model of mask.rs `Mask::add_filled_utm_polygon`.  The geo-library pieces
(planar bounding rectangle of the polygon, point-in-polygon containment) are
external collaborators; they enter here as the precomputed cell rectangle
`min_x..=max_x × min_y..=max_y` and the containment test `contains` on cell
coordinates.  The bounds pre-check and the `|=` write loop follow the
source. -/
def Mask.add_filled_region (m : Mask) (min_x max_x min_y max_y : ℕ)
    (contains : ℕ → ℕ → Bool) : Mask × Option LasToStlError :=
  if max_x > m.x_res ∨ max_y > m.y_res then
    (m, some (LasToStlError.PolygonOutOfBoundsError m.x_res m.y_res max_x max_y))
  else
    ((List.range (max_x + 1 - min_x)).foldl (fun acc i =>
      let x := min_x + i
      (List.range (max_y + 1 - min_y)).foldl (fun (acc2 : Mask) j =>
        let y := min_y + j
        { acc2 with data := (acc2.data.set (y * acc2.x_res + x)
            ((acc2.data.getD (y * acc2.x_res + x) false) || contains x y)) }) acc) m, none)

/-- height_map.rs `HeightMap::offset_by_mask`: adds `offset` to every height
whose mask cell is true.  In the matching-geometry branch the source unwraps
`mask_iter.next()` for every height, which panics (`none`) when the mask data
array is shorter than the height data array. -/
def HeightMap.offset_by_mask (hm : HeightMap) (mask : Mask) (offset : ℚ) :
    Option (HeightMap × Option LasToStlError) :=
  if hm.x_res = mask.x_res ∧ hm.y_res = mask.y_res ∧ hm.bounds = mask.bounds then
    if hm.data.length ≤ mask.data.length then
      some ({ hm with data := (hm.data.zipWith
        (fun height mask_state => if mask_state then height + offset else height)
        mask.data) }, none)
    else
      none
  else
    some (hm, some (LasToStlError.MaskBoundMismatchError hm.x_res hm.y_res
      mask.x_res mask.y_res hm.bounds mask.bounds))

/-! ### Generic lemmas about the element-wise combination pattern -/

lemma zipWith_getD {α β γ : Type} (f : α → β → γ) (a : List α) (b : List β) (i : ℕ)
    (da : α) (db : β) (dc : γ) (ha : i < a.length) (hb : i < b.length) :
    (a.zipWith f b).getD i dc = f (a.getD i da) (b.getD i db) := by
  rw [List.getD_eq_getElem?_getD, List.getD_eq_getElem?_getD, List.getD_eq_getElem?_getD]
  rw [List.getElem?_eq_getElem ha, List.getElem?_eq_getElem hb,
    List.getElem?_eq_getElem (by simp [List.length_zipWith]; omega :
      i < (a.zipWith f b).length)]
  simp [List.getElem_zipWith]

lemma maskCombine_length (f : Bool → Bool → Bool) (a b : List Bool) :
    ((a.zipWith f b) ++ a.drop b.length).length = a.length := by
  simp [List.length_zipWith]
  omega

lemma maskCombine_getD_lt (f : Bool → Bool → Bool) (a b : List Bool) (i : ℕ)
    (ha : i < a.length) (hb : i < b.length) :
    ((a.zipWith f b) ++ a.drop b.length).getD i false =
      f (a.getD i false) (b.getD i false) := by
  rw [List.getD_eq_getElem?_getD, List.getElem?_append,
    if_pos (by simp [List.length_zipWith]; omega)]
  rw [← List.getD_eq_getElem?_getD]
  exact zipWith_getD f a b i false false false ha hb

lemma maskCombine_getD_ge (f : Bool → Bool → Bool) (a b : List Bool) (i : ℕ)
    (hb : b.length ≤ i) :
    ((a.zipWith f b) ++ a.drop b.length).getD i false = a.getD i false := by
  rw [List.getD_eq_getElem?_getD, List.getElem?_append,
    if_neg (by simp [List.length_zipWith]; omega)]
  rw [List.getElem?_drop, List.getD_eq_getElem?_getD]
  by_cases hab : b.length ≤ a.length
  · have : b.length + (i - (a.zipWith f b).length) = i := by
      simp [List.length_zipWith]
      omega
    rw [this]
  · have h1 : a[b.length + (i - (a.zipWith f b).length)]? = none := by
      rw [List.getElem?_eq_none_iff]
      omega
    have h2 : a[i]? = none := by
      rw [List.getElem?_eq_none_iff]
      omega
    rw [h1, h2]

/-! ### C5: checked pairwise operations require matching geometry -/

/-- C5: every checked pairwise operation (`offset_by_mask` and the four
checked mask combinations) succeeds and acts element-wise on every cell when
`x_res`, `y_res` and `bounds` all agree, and returns the geometry-mismatch
error carrying both operands' resolutions and bounds — receiver untouched —
when they do not. -/
theorem C5_checked_pairwise_geometry (hm : HeightMap) (m other : Mask) (offset : ℚ)
    (hwf_hm : hm.data.length = hm.x_res * hm.y_res)
    (hwf_m : m.data.length = m.x_res * m.y_res)
    (hwf_other : other.data.length = other.x_res * other.y_res) :
    ((m.x_res = other.x_res ∧ m.y_res = other.y_res ∧ m.bounds = other.bounds) →
      ((m.checked_bitor_assign other).2 = none ∧
        (m.checked_bitor_assign other).1.data.length = m.data.length ∧
        (∀ i, i < m.data.length → (m.checked_bitor_assign other).1.data.getD i false =
          ((m.data.getD i false) || (other.data.getD i false))) ∧
        (m.checked_bitand_assign other).2 = none ∧
        (m.checked_bitand_assign other).1.data.length = m.data.length ∧
        (∀ i, i < m.data.length → (m.checked_bitand_assign other).1.data.getD i false =
          ((m.data.getD i false) && (other.data.getD i false))) ∧
        (m.checked_bitxor_assign other).2 = none ∧
        (m.checked_bitxor_assign other).1.data.length = m.data.length ∧
        (∀ i, i < m.data.length → (m.checked_bitxor_assign other).1.data.getD i false =
          xor (m.data.getD i false) (other.data.getD i false)) ∧
        (m.checked_sub_assign other).2 = none ∧
        (m.checked_sub_assign other).1.data.length = m.data.length ∧
        (∀ i, i < m.data.length → (m.checked_sub_assign other).1.data.getD i false =
          ((m.data.getD i false) && !(other.data.getD i false))))) ∧
    (¬ (m.x_res = other.x_res ∧ m.y_res = other.y_res ∧ m.bounds = other.bounds) →
      (m.checked_bitor_assign other = (m, some (LasToStlError.MaskBoundMismatchError
        other.x_res other.y_res m.x_res m.y_res other.bounds m.bounds)) ∧
       m.checked_bitand_assign other = (m, some (LasToStlError.MaskBoundMismatchError
        other.x_res other.y_res m.x_res m.y_res other.bounds m.bounds)) ∧
       m.checked_bitxor_assign other = (m, some (LasToStlError.MaskBoundMismatchError
        other.x_res other.y_res m.x_res m.y_res other.bounds m.bounds)) ∧
       m.checked_sub_assign other = (m, some (LasToStlError.MaskBoundMismatchError
        other.x_res other.y_res m.x_res m.y_res other.bounds m.bounds)))) ∧
    ((hm.x_res = m.x_res ∧ hm.y_res = m.y_res ∧ hm.bounds = m.bounds) →
      (∃ hm2, hm.offset_by_mask m offset = some (hm2, none) ∧
        hm2.x_res = hm.x_res ∧ hm2.y_res = hm.y_res ∧ hm2.bounds = hm.bounds ∧
        hm2.data.length = hm.data.length ∧
        (∀ i, i < hm.data.length → hm2.data.getD i 0 =
          (if m.data.getD i false then hm.data.getD i 0 + offset else hm.data.getD i 0)))) ∧
    (¬ (hm.x_res = m.x_res ∧ hm.y_res = m.y_res ∧ hm.bounds = m.bounds) →
      hm.offset_by_mask m offset = some (hm, some (LasToStlError.MaskBoundMismatchError
        hm.x_res hm.y_res m.x_res m.y_res hm.bounds m.bounds))) := by
  refine ⟨?_, ?_, ?_, ?_⟩
  · rintro ⟨h1, h2, h3⟩
    have hlen : other.data.length = m.data.length := by rw [hwf_m, hwf_other, h1, h2]
    simp only [Mask.checked_bitor_assign, Mask.checked_bitand_assign,
      Mask.checked_bitxor_assign, Mask.checked_sub_assign, h1, h2, h3, and_self, if_true]
    refine ⟨?_, ?_, ?_, ?_, ?_, ?_, ?_, ?_, ?_, ?_, ?_, ?_⟩ <;>
      first
        | rfl
        | trivial
        | exact maskCombine_length _ _ _
        | exact fun i hi => maskCombine_getD_lt _ _ _ _ hi (by omega)
  · intro h
    simp [Mask.checked_bitor_assign, Mask.checked_bitand_assign,
      Mask.checked_bitxor_assign, Mask.checked_sub_assign, h]
  · rintro ⟨h1, h2, h3⟩
    have hlen : hm.data.length = m.data.length := by rw [hwf_hm, hwf_m, h1, h2]
    simp only [HeightMap.offset_by_mask, h1, h2, h3, and_self, if_true, if_pos hlen.le]
    refine ⟨_, rfl, ?_, ?_, ?_, ?_, ?_⟩ <;>
      first
        | rfl
        | trivial
        | (simp [List.length_zipWith]; omega)
        | exact fun i hi => zipWith_getD _ _ _ _ 0 false 0 hi (by omega)
  · intro h
    simp [HeightMap.offset_by_mask, h]

/-- A 2×1 height grid used by the C5 witness. -/
def c5hm : HeightMap := { data := [1, 2], x_res := 2, y_res := 1, bounds := c1Box }

/-- A 2×1 mask with the same geometry as `c5hm`. -/
def c5m : Mask :=
  { data := [true, false], x_res := 2, y_res := 1, x_tick := 1, y_tick := 1, bounds := c1Box }

/-- Another 2×1 mask with the same geometry. -/
def c5other : Mask :=
  { data := [false, true], x_res := 2, y_res := 1, x_tick := 1, y_tick := 1, bounds := c1Box }

/-- A 1×1 mask whose geometry does not match `c5m`. -/
def c5bad : Mask :=
  { data := [false], x_res := 1, y_res := 1, x_tick := 1, y_tick := 1, bounds := c1Box }

/-- Witness for C5: the theorem applied to a matching pair (`c5m`, `c5other`,
and `c5hm` for the height-grid operation) and to the mismatched pair
(`c5m`, `c5bad`). -/
theorem C5_checked_pairwise_geometry_witness :
    (c5hm.data.length = c5hm.x_res * c5hm.y_res ∧
     c5m.data.length = c5m.x_res * c5m.y_res ∧
     c5other.data.length = c5other.x_res * c5other.y_res) ∧
    (c5m.checked_bitor_assign c5other).2 = none ∧
    (c5m.checked_bitor_assign c5other).1.data.getD 0 false =
      ((c5m.data.getD 0 false) || (c5other.data.getD 0 false)) ∧
    c5m.checked_bitor_assign c5bad = (c5m, some (LasToStlError.MaskBoundMismatchError
      c5bad.x_res c5bad.y_res c5m.x_res c5m.y_res c5bad.bounds c5m.bounds)) ∧
    (∃ hm2, c5hm.offset_by_mask c5m 3 = some (hm2, none)) := by
  have A := C5_checked_pairwise_geometry c5hm c5m c5other 3 (by decide) (by decide) (by decide)
  have B := C5_checked_pairwise_geometry c5hm c5m c5bad 3 (by decide) (by decide) (by decide)
  refine ⟨⟨by decide, by decide, by decide⟩, (A.1 ⟨rfl, rfl, rfl⟩).1,
    (A.1 ⟨rfl, rfl, rfl⟩).2.2.1 0 (by decide), (B.2.1 (by decide)).1, ?_⟩
  obtain ⟨hm2, he, -⟩ := A.2.2.1 ⟨rfl, rfl, rfl⟩
  exact ⟨hm2, he⟩

/-! ### C6: the unchecked operator implementations -/

/-- A 3×2 all-false mask. -/
def c6m1 : Mask :=
  { data := [false, false, false, false, false, false], x_res := 3, y_res := 2,
    x_tick := 1, y_tick := 1, bounds := c1Box }

/-- A 1×2 all-true mask: a different resolution from `c6m1`. -/
def c6m2 : Mask :=
  { data := [true, true], x_res := 1, y_res := 2,
    x_tick := 1, y_tick := 1, bounds := c1Box }

/-- C6 counterexample: the unchecked `BitOrAssign` operator combines the 3×2
mask `c6m1` with the 1×2 mask `c6m2` element-wise over the common prefix —
silent truncation — even though their resolutions differ; no check stops
it. -/
theorem C6_counterexample :
    c6m1.x_res ≠ c6m2.x_res ∧
    (c6m1.bitor_assign c6m2).data = [true, true, false, false, false, false] ∧
    (c6m1.bitor_assign c6m2).data ≠ c6m1.data := by
  exact ⟨by decide, by decide, by decide⟩

/-- C6 (amended): the unchecked operator implementations perform no check at
all — neither resolution nor extent: for any two masks they combine the
common prefix of the data arrays element-wise (truncating at the shorter) and
leave the rest of the receiver unchanged. -/
theorem C6_unchecked_ops_combine_without_checks (m other : Mask) (i j : ℕ)
    (hi1 : i < m.data.length) (hi2 : i < other.data.length)
    (hj : other.data.length ≤ j) :
    ((m.bitor_assign other).data.length = m.data.length ∧
     (m.bitand_assign other).data.length = m.data.length ∧
     (m.bitxor_assign other).data.length = m.data.length ∧
     (m.sub_assign other).data.length = m.data.length) ∧
    ((m.bitor_assign other).data.getD i false =
        ((m.data.getD i false) || (other.data.getD i false)) ∧
     (m.bitand_assign other).data.getD i false =
        ((m.data.getD i false) && (other.data.getD i false)) ∧
     (m.bitxor_assign other).data.getD i false =
        xor (m.data.getD i false) (other.data.getD i false) ∧
     (m.sub_assign other).data.getD i false =
        ((m.data.getD i false) && !(other.data.getD i false))) ∧
    ((m.bitor_assign other).data.getD j false = m.data.getD j false ∧
     (m.bitand_assign other).data.getD j false = m.data.getD j false ∧
     (m.bitxor_assign other).data.getD j false = m.data.getD j false ∧
     (m.sub_assign other).data.getD j false = m.data.getD j false) :=
  ⟨⟨maskCombine_length _ _ _, maskCombine_length _ _ _,
    maskCombine_length _ _ _, maskCombine_length _ _ _⟩,
   ⟨maskCombine_getD_lt _ _ _ _ hi1 hi2, maskCombine_getD_lt _ _ _ _ hi1 hi2,
    maskCombine_getD_lt _ _ _ _ hi1 hi2, maskCombine_getD_lt _ _ _ _ hi1 hi2⟩,
   ⟨maskCombine_getD_ge _ _ _ _ hj, maskCombine_getD_ge _ _ _ _ hj,
    maskCombine_getD_ge _ _ _ _ hj, maskCombine_getD_ge _ _ _ _ hj⟩⟩

/-- Witness for C6: the amended theorem applied to `c6m1`, `c6m2` at the
combined cell 0 and the truncated cell 5. -/
theorem C6_unchecked_ops_combine_without_checks_witness :
    (0 < c6m1.data.length ∧ 0 < c6m2.data.length ∧ c6m2.data.length ≤ 5) ∧
    (c6m1.bitor_assign c6m2).data.getD 0 false =
      ((c6m1.data.getD 0 false) || (c6m2.data.getD 0 false)) ∧
    (c6m1.bitor_assign c6m2).data.getD 5 false = c6m1.data.getD 5 false ∧
    (c6m1.bitor_assign c6m2).data.length = c6m1.data.length :=
  ⟨⟨by decide, by decide, by decide⟩,
   (C6_unchecked_ops_combine_without_checks c6m1 c6m2 0 5
      (by decide) (by decide) (by decide)).2.1.1,
   (C6_unchecked_ops_combine_without_checks c6m1 c6m2 0 5
      (by decide) (by decide) (by decide)).2.2.1,
   (C6_unchecked_ops_combine_without_checks c6m1 c6m2 0 5
      (by decide) (by decide) (by decide)).1.1⟩

/-! ### C7: set_with_deltas -/

/-- Characterization of the `set_with_deltas` fold: fields are preserved, the
success counter counts the in-range deltas, and a cell holds `state` exactly
when some in-range delta targets it. -/
lemma set_with_deltas_foldl_char (x y : ℕ) (state : Bool) (deltas : List (ℤ × ℤ))
    (m0 : Mask) (n0 : ℕ) (hwf : m0.data.length = m0.x_res * m0.y_res) :
    ((deltas.foldl (set_with_deltas_step x y state) (m0, n0)).1.x_res = m0.x_res ∧
     (deltas.foldl (set_with_deltas_step x y state) (m0, n0)).1.y_res = m0.y_res ∧
     (deltas.foldl (set_with_deltas_step x y state) (m0, n0)).1.x_tick = m0.x_tick ∧
     (deltas.foldl (set_with_deltas_step x y state) (m0, n0)).1.y_tick = m0.y_tick ∧
     (deltas.foldl (set_with_deltas_step x y state) (m0, n0)).1.bounds = m0.bounds ∧
     (deltas.foldl (set_with_deltas_step x y state) (m0, n0)).1.data.length =
       m0.data.length) ∧
    (deltas.foldl (set_with_deltas_step x y state) (m0, n0)).2 =
      n0 + deltas.countP (fun d => decide (usizeOfInt ((x : ℤ) + d.1) < m0.x_res ∧
        usizeOfInt ((y : ℤ) + d.2) < m0.y_res)) ∧
    (∀ i, (deltas.foldl (set_with_deltas_step x y state) (m0, n0)).1.data.getD i false =
      (if deltas.any (fun d => decide (usizeOfInt ((x : ℤ) + d.1) < m0.x_res ∧
          usizeOfInt ((y : ℤ) + d.2) < m0.y_res ∧
          usizeOfInt ((y : ℤ) + d.2) * m0.x_res + usizeOfInt ((x : ℤ) + d.1) = i))
       then state else m0.data.getD i false)) := by
  induction deltas generalizing m0 n0 with
  | nil => simp
  | cons d ds ih =>
    rw [List.foldl_cons]
    by_cases hin : usizeOfInt ((x : ℤ) + d.1) < m0.x_res ∧ usizeOfInt ((y : ℤ) + d.2) < m0.y_res
    · have htgt : usizeOfInt ((y : ℤ) + d.2) * m0.x_res + usizeOfInt ((x : ℤ) + d.1) <
          m0.data.length := by
        obtain ⟨h1, h2⟩ := hin
        have h3 : usizeOfInt ((y : ℤ) + d.2) + 1 ≤ m0.y_res := h2
        calc usizeOfInt ((y : ℤ) + d.2) * m0.x_res + usizeOfInt ((x : ℤ) + d.1)
            < (usizeOfInt ((y : ℤ) + d.2) + 1) * m0.x_res := by
              rw [Nat.add_mul, Nat.one_mul]
              omega
          _ ≤ m0.y_res * m0.x_res := Nat.mul_le_mul_right _ h3
          _ = m0.data.length := by rw [hwf, Nat.mul_comm]
      have hstep : set_with_deltas_step x y state (m0, n0) d =
          ({ m0 with data := (m0.data.set
            (usizeOfInt ((y : ℤ) + d.2) * m0.x_res + usizeOfInt ((x : ℤ) + d.1)) state) },
           n0 + 1) := by
        simp [set_with_deltas_step, Mask.set_x_y, hin]
      rw [hstep]
      obtain ⟨hfields, hcount, hcells⟩ :=
        ih { m0 with data := (m0.data.set
              (usizeOfInt ((y : ℤ) + d.2) * m0.x_res + usizeOfInt ((x : ℤ) + d.1)) state) }
          (n0 + 1) (by simpa using hwf)
      dsimp only at hfields hcount hcells
      rw [List.length_set] at hfields
      refine ⟨hfields, ?_, ?_⟩
      · rw [hcount, List.countP_cons]
        have hd : (decide (usizeOfInt ((x : ℤ) + d.1) < m0.x_res ∧
            usizeOfInt ((y : ℤ) + d.2) < m0.y_res)) = true := by
          simp only [decide_eq_true_eq]
          exact hin
        rw [hd]
        simp only [if_pos]
        omega
      · intro i
        rw [hcells i, List.any_cons]
        by_cases hti : usizeOfInt ((y : ℤ) + d.2) * m0.x_res + usizeOfInt ((x : ℤ) + d.1) = i
        · have hd : (decide (usizeOfInt ((x : ℤ) + d.1) < m0.x_res ∧
              usizeOfInt ((y : ℤ) + d.2) < m0.y_res ∧
              usizeOfInt ((y : ℤ) + d.2) * m0.x_res + usizeOfInt ((x : ℤ) + d.1) = i)) =
              true := by
            simp only [decide_eq_true_eq]
            exact ⟨hin.1, hin.2, hti⟩
          rw [hd]
          simp only [Bool.true_or, eq_self_iff_true, if_true]
          split
          · rfl
          · rw [List.getD_eq_getElem?_getD, ← hti, List.getElem?_set_self htgt]
            rfl
        · have hd : (decide (usizeOfInt ((x : ℤ) + d.1) < m0.x_res ∧
              usizeOfInt ((y : ℤ) + d.2) < m0.y_res ∧
              usizeOfInt ((y : ℤ) + d.2) * m0.x_res + usizeOfInt ((x : ℤ) + d.1) = i)) =
              false := by
            rw [decide_eq_false_iff_not]
            rintro ⟨-, -, h3⟩
            exact hti h3
          rw [hd]
          simp only [Bool.false_or]
          rw [List.getD_eq_getElem?_getD, List.getElem?_set_ne hti,
            ← List.getD_eq_getElem?_getD]
    · have hstep : set_with_deltas_step x y state (m0, n0) d = (m0, n0) := by
        simp [set_with_deltas_step, Mask.set_x_y, hin]
      rw [hstep]
      obtain ⟨hfields, hcount, hcells⟩ := ih m0 n0 hwf
      refine ⟨hfields, ?_, ?_⟩
      · rw [hcount, List.countP_cons]
        simp [hin]
      · intro i
        rw [hcells i, List.any_cons]
        have hd : (decide (usizeOfInt ((x : ℤ) + d.1) < m0.x_res ∧
            usizeOfInt ((y : ℤ) + d.2) < m0.y_res ∧
            usizeOfInt ((y : ℤ) + d.2) * m0.x_res + usizeOfInt ((x : ℤ) + d.1) = i)) =
            false := by
          rw [decide_eq_false_iff_not]
          rintro ⟨h1, h2, -⟩
          exact hin ⟨h1, h2⟩
        rw [hd]
        simp only [Bool.false_or]

/-- C7: `set_with_deltas` sets every in-range offset cell to `state`, skips
every out-of-range offset individually without propagating an error, leaves
untargeted cells unchanged, and returns the out-of-bounds error exactly when
no offset landed within bounds. -/
theorem C7_set_with_deltas_partial_stamp (m : Mask) (x y : ℕ) (state : Bool)
    (deltas : List (ℤ × ℤ)) (hwf : m.data.length = m.x_res * m.y_res) :
    ((m.set_with_deltas x y state deltas).2 = none ↔
      ∃ d ∈ deltas, usizeOfInt ((x : ℤ) + d.1) < m.x_res ∧
        usizeOfInt ((y : ℤ) + d.2) < m.y_res) ∧
    ((m.set_with_deltas x y state deltas).2 = none ∨
      (m.set_with_deltas x y state deltas).2 =
        some (LasToStlError.SetWithDeltaError m.x_res m.y_res x y)) ∧
    (∀ d ∈ deltas, usizeOfInt ((x : ℤ) + d.1) < m.x_res →
      usizeOfInt ((y : ℤ) + d.2) < m.y_res →
      (m.set_with_deltas x y state deltas).1.data.getD
        (usizeOfInt ((y : ℤ) + d.2) * m.x_res + usizeOfInt ((x : ℤ) + d.1)) false = state) ∧
    (∀ i, (∀ d ∈ deltas, ¬ (usizeOfInt ((x : ℤ) + d.1) < m.x_res ∧
        usizeOfInt ((y : ℤ) + d.2) < m.y_res ∧
        usizeOfInt ((y : ℤ) + d.2) * m.x_res + usizeOfInt ((x : ℤ) + d.1) = i)) →
      (m.set_with_deltas x y state deltas).1.data.getD i false = m.data.getD i false) := by
  obtain ⟨hfields, hcount, hcells⟩ := set_with_deltas_foldl_char x y state deltas m 0 hwf
  have hfst : (m.set_with_deltas x y state deltas).1 =
      (deltas.foldl (set_with_deltas_step x y state) (m, 0)).1 := by
    simp only [Mask.set_with_deltas]
    split <;> rfl
  refine ⟨⟨?_, ?_⟩, ?_, ?_, ?_⟩
  · intro hnone
    simp only [Mask.set_with_deltas] at hnone
    by_cases hz : (deltas.foldl (set_with_deltas_step x y state) (m, 0)).2 = 0
    · rw [if_pos hz] at hnone
      exact absurd hnone (by simp)
    · rw [hcount] at hz
      obtain ⟨d, hd, hp⟩ := List.countP_pos.mp (show 0 < deltas.countP
        (fun d => decide (usizeOfInt ((x : ℤ) + d.1) < m.x_res ∧
          usizeOfInt ((y : ℤ) + d.2) < m.y_res)) by omega)
      exact ⟨d, hd, of_decide_eq_true hp⟩
  · rintro ⟨d, hd, hc1, hc2⟩
    have hpos : 0 < deltas.countP (fun d => decide (usizeOfInt ((x : ℤ) + d.1) < m.x_res ∧
        usizeOfInt ((y : ℤ) + d.2) < m.y_res)) :=
      List.countP_pos.mpr ⟨d, hd, by
        simp only [decide_eq_true_eq]
        exact ⟨hc1, hc2⟩⟩
    simp only [Mask.set_with_deltas]
    rw [if_neg (by rw [hcount]; omega)]
  · simp only [Mask.set_with_deltas]
    split
    · right
      rw [hfields.1, hfields.2.1]
    · left
      rfl
  · intro d hd hc1 hc2
    rw [hfst, hcells _]
    have hany : deltas.any (fun e => decide (usizeOfInt ((x : ℤ) + e.1) < m.x_res ∧
        usizeOfInt ((y : ℤ) + e.2) < m.y_res ∧
        usizeOfInt ((y : ℤ) + e.2) * m.x_res + usizeOfInt ((x : ℤ) + e.1) =
          usizeOfInt ((y : ℤ) + d.2) * m.x_res + usizeOfInt ((x : ℤ) + d.1))) = true :=
      List.any_eq_true.mpr ⟨d, hd, by
        simp only [decide_eq_true_eq, eq_self_iff_true, and_true]
        exact ⟨hc1, hc2⟩⟩
    rw [hany]
    simp
  · intro i hno
    rw [hfst, hcells i]
    have hany : deltas.any (fun e => decide (usizeOfInt ((x : ℤ) + e.1) < m.x_res ∧
        usizeOfInt ((y : ℤ) + e.2) < m.y_res ∧
        usizeOfInt ((y : ℤ) + e.2) * m.x_res + usizeOfInt ((x : ℤ) + e.1) = i)) = false :=
      List.any_eq_false.mpr (fun e he => by
        simp only [decide_eq_true_eq]
        exact hno e he)
    rw [hany]
    simp

/-- A 2×2 all-false mask for the C7 witness. -/
def c7m : Mask :=
  { data := [false, false, false, false], x_res := 2, y_res := 2,
    x_tick := 1, y_tick := 1, bounds := c1Box }

/-- Witness for C7: a 2×2 all-false mask stamped at `(0, 0)` with the deltas
`[(0, 0), (-1, 0)]`: the in-range offset `(0, 0)` is set, the out-of-range
offset `(-1, 0)` is skipped, and the call succeeds. -/
theorem C7_set_with_deltas_partial_stamp_witness :
    c7m.data.length = c7m.x_res * c7m.y_res ∧
    ((c7m.set_with_deltas 0 0 true [(0, 0), (-1, 0)]).2 = none ↔
      ∃ d ∈ [((0 : ℤ), (0 : ℤ)), (-1, 0)], usizeOfInt ((0 : ℤ) + d.1) < c7m.x_res ∧
        usizeOfInt ((0 : ℤ) + d.2) < c7m.y_res) ∧
    (∀ i, (∀ d ∈ [((0 : ℤ), (0 : ℤ)), (-1, 0)], ¬ (usizeOfInt ((0 : ℤ) + d.1) < c7m.x_res ∧
        usizeOfInt ((0 : ℤ) + d.2) < c7m.y_res ∧
        usizeOfInt ((0 : ℤ) + d.2) * c7m.x_res + usizeOfInt ((0 : ℤ) + d.1) = i)) →
      (c7m.set_with_deltas 0 0 true [(0, 0), (-1, 0)]).1.data.getD i false =
        c7m.data.getD i false) :=
  ⟨by decide,
   (C7_set_with_deltas_partial_stamp c7m 0 0 true [(0, 0), (-1, 0)] (by decide)).1,
   (C7_set_with_deltas_partial_stamp c7m 0 0 true [(0, 0), (-1, 0)] (by decide)).2.2.2⟩

/-! ### C10: mutating mask operations preserve the grid shape -/

/-- `sameShape m2 m`: `m2` carries the same `x_res`, `y_res`, `x_tick`,
`y_tick`, `bounds` and data length as `m`. -/
def sameShape (m2 m : Mask) : Prop :=
  m2.x_res = m.x_res ∧ m2.y_res = m.y_res ∧ m2.x_tick = m.x_tick ∧
  m2.y_tick = m.y_tick ∧ m2.bounds = m.bounds ∧ m2.data.length = m.data.length

lemma sameShape_refl (m : Mask) : sameShape m m :=
  ⟨rfl, rfl, rfl, rfl, rfl, rfl⟩

lemma sameShape_trans {m1 m2 m3 : Mask} (h1 : sameShape m1 m2) (h2 : sameShape m2 m3) :
    sameShape m1 m3 := by
  obtain ⟨a1, a2, a3, a4, a5, a6⟩ := h1
  obtain ⟨b1, b2, b3, b4, b5, b6⟩ := h2
  exact ⟨a1.trans b1, a2.trans b2, a3.trans b3, a4.trans b4, a5.trans b5, a6.trans b6⟩

/-- The `set_with_deltas` fold preserves the mask shape (no well-formedness
needed). -/
lemma set_with_deltas_foldl_shape (x y : ℕ) (state : Bool) (deltas : List (ℤ × ℤ))
    (m0 : Mask) (n0 : ℕ) :
    sameShape (deltas.foldl (set_with_deltas_step x y state) (m0, n0)).1 m0 := by
  induction deltas generalizing m0 n0 with
  | nil => exact sameShape_refl m0
  | cons d ds ih =>
    rw [List.foldl_cons]
    by_cases hin : usizeOfInt ((x : ℤ) + d.1) < m0.x_res ∧ usizeOfInt ((y : ℤ) + d.2) < m0.y_res
    · have hstep : set_with_deltas_step x y state (m0, n0) d =
          ({ m0 with data := (m0.data.set
            (usizeOfInt ((y : ℤ) + d.2) * m0.x_res + usizeOfInt ((x : ℤ) + d.1)) state) },
           n0 + 1) := by
        simp [set_with_deltas_step, Mask.set_x_y, hin]
      rw [hstep]
      refine sameShape_trans (ih _ (n0 + 1)) ⟨rfl, rfl, rfl, rfl, rfl, ?_⟩
      exact List.length_set m0.data _ _
    · have hstep : set_with_deltas_step x y state (m0, n0) d = (m0, n0) := by
        simp [set_with_deltas_step, Mask.set_x_y, hin]
      rw [hstep]
      exact ih m0 n0

lemma set_with_deltas_shape (m : Mask) (x y : ℕ) (state : Bool) (deltas : List (ℤ × ℤ)) :
    sameShape (m.set_with_deltas x y state deltas).1 m := by
  have hfst : (m.set_with_deltas x y state deltas).1 =
      (deltas.foldl (set_with_deltas_step x y state) (m, 0)).1 := by
    simp only [Mask.set_with_deltas]
    split <;> rfl
  rw [hfst]
  exact set_with_deltas_foldl_shape x y state deltas m 0

lemma foldl_sameShape {β : Type} (f : Mask → β → Mask)
    (hf : ∀ acc b, sameShape (f acc b) acc) (l : List β) (m0 : Mask) :
    sameShape (l.foldl f m0) m0 := by
  induction l generalizing m0 with
  | nil => exact sameShape_refl m0
  | cons b bs ih => exact sameShape_trans (ih (f m0 b)) (hf m0 b)

/-- C10: every mutating mask operation — `set_x_y`, `set_with_deltas`,
`invert`, the checked and unchecked set-algebra operations, point stamping
(`add_utm_point`) and region fill (`add_filled_region`) — preserves `x_res`,
`y_res`, `x_tick`, `y_tick`, `bounds` and the length of `data`
(which `new_with_dims` establishes as `x_res * y_res`). -/
theorem C10_mutating_ops_preserve_shape (m other : Mask) (x y : ℕ) (st : Bool)
    (deltas : List (ℤ × ℤ)) (coord : UtmCoord) (radius : ℕ)
    (min_x max_x min_y max_y : ℕ) (contains : ℕ → ℕ → Bool)
    (xr yr : ℕ) (b : UtmBoundingBox) :
    (Mask.new_with_dims xr yr b).data.length = xr * yr ∧
    sameShape (match m.set_x_y x y st with
      | Except.ok m2 => m2
      | Except.error _ => m) m ∧
    sameShape (m.set_with_deltas x y st deltas).1 m ∧
    sameShape m.invert m ∧
    sameShape (m.checked_bitor_assign other).1 m ∧
    sameShape (m.checked_bitand_assign other).1 m ∧
    sameShape (m.checked_bitxor_assign other).1 m ∧
    sameShape (m.checked_sub_assign other).1 m ∧
    sameShape (m.bitor_assign other) m ∧
    sameShape (m.bitand_assign other) m ∧
    sameShape (m.bitxor_assign other) m ∧
    sameShape (m.sub_assign other) m ∧
    sameShape (m.add_utm_point coord radius).1 m ∧
    sameShape (m.add_filled_region min_x max_x min_y max_y contains).1 m := by
  refine ⟨by simp [Mask.new_with_dims], ?_, set_with_deltas_shape m x y st deltas,
    ⟨rfl, rfl, rfl, rfl, rfl, by simp [Mask.invert]⟩, ?_, ?_, ?_, ?_,
    ⟨rfl, rfl, rfl, rfl, rfl, maskCombine_length _ _ _⟩,
    ⟨rfl, rfl, rfl, rfl, rfl, maskCombine_length _ _ _⟩,
    ⟨rfl, rfl, rfl, rfl, rfl, maskCombine_length _ _ _⟩,
    ⟨rfl, rfl, rfl, rfl, rfl, maskCombine_length _ _ _⟩,
    ?_, ?_⟩
  · unfold Mask.set_x_y
    by_cases hin : x < m.x_res ∧ y < m.y_res
    · rw [if_pos hin]
      exact ⟨rfl, rfl, rfl, rfl, rfl, List.length_set m.data _ _⟩
    · rw [if_neg hin]
      exact sameShape_refl m
  · unfold Mask.checked_bitor_assign
    by_cases hc : m.x_res = other.x_res ∧ m.y_res = other.y_res ∧ m.bounds = other.bounds
    · rw [if_pos hc]
      exact ⟨rfl, rfl, rfl, rfl, rfl, maskCombine_length _ _ _⟩
    · rw [if_neg hc]
      exact sameShape_refl m
  · unfold Mask.checked_bitand_assign
    by_cases hc : m.x_res = other.x_res ∧ m.y_res = other.y_res ∧ m.bounds = other.bounds
    · rw [if_pos hc]
      exact ⟨rfl, rfl, rfl, rfl, rfl, maskCombine_length _ _ _⟩
    · rw [if_neg hc]
      exact sameShape_refl m
  · unfold Mask.checked_bitxor_assign
    by_cases hc : m.x_res = other.x_res ∧ m.y_res = other.y_res ∧ m.bounds = other.bounds
    · rw [if_pos hc]
      exact ⟨rfl, rfl, rfl, rfl, rfl, maskCombine_length _ _ _⟩
    · rw [if_neg hc]
      exact sameShape_refl m
  · unfold Mask.checked_sub_assign
    by_cases hc : m.x_res = other.x_res ∧ m.y_res = other.y_res ∧ m.bounds = other.bounds
    · rw [if_pos hc]
      exact ⟨rfl, rfl, rfl, rfl, rfl, maskCombine_length _ _ _⟩
    · rw [if_neg hc]
      exact sameShape_refl m
  · unfold Mask.add_utm_point
    exact set_with_deltas_shape m _ _ true _
  · unfold Mask.add_filled_region
    split
    · exact sameShape_refl m
    · refine foldl_sameShape _ (fun acc i => ?_) _ m
      refine foldl_sameShape _ (fun acc2 j => ?_) _ acc
      exact ⟨rfl, rfl, rfl, rfl, rfl, List.length_set acc2.data _ _⟩

/-! ### stl.rs: vertices, triangles and the unmasked generator -/

/-- An stl_io `Vertex`/`Normal`: three `f32` components, modelled as `ℚ`. -/
structure Vertex where
  x : ℚ
  y : ℚ
  z : ℚ
deriving DecidableEq, Repr

/-- An stl_io `Triangle`: a normal and three vertices. -/
structure Triangle where
  normal : Vertex
  v1 : Vertex
  v2 : Vertex
  v3 : Vertex
deriving DecidableEq, Repr

/-- Default vertex used to embed the (in-range, proven never failing)
`Vec` indexing of the vertex lists. -/
def dfltVertex : Vertex := ⟨0, 0, 0⟩

/-- utils.rs `normal_pos_or_default`, modelled over exact rationals: an `f64`
is `FpCategory::Normal` with positive sign exactly when the exact value is
`> 0` (zero is `FpCategory::Zero` and falls to the default). -/
def normal_pos_or_default (float dflt : ℚ) : ℚ :=
  if 0 < float then float else dflt

/-- stl.rs `vertex_rec_to_triangles_diagonal`. -/
def vertex_rec_to_triangles_diagonal (vertex_1 vertex_2 vertex_3 vertex_4 : Vertex)
    (normal : Vertex) : List Triangle :=
  [{ normal := normal, v1 := vertex_1, v2 := vertex_2, v3 := vertex_4 },
   { normal := normal, v1 := vertex_2, v2 := vertex_3, v3 := vertex_4 }]

/-- stl.rs `option_vertex_rec_to_triangles_diagonal`: `none` when any corner
vertex is absent. -/
def option_vertex_rec_to_triangles_diagonal
    (vertex_1 vertex_2 vertex_3 vertex_4 : Option Vertex) (normal : Vertex) :
    Option (List Triangle) :=
  match vertex_1, vertex_2, vertex_3, vertex_4 with
  | some v1, some v2, some v3, some v4 =>
      some (vertex_rec_to_triangles_diagonal v1 v2 v3 v4 normal)
  | _, _, _, _ => none

/-- The top vertex list of stl.rs `save_as_stl`: for flat index `i`, position
`(i % x_res, i / x_res)` with the clamped, scaled elevation. -/
def HeightMap.top_vertex_list (hm : HeightMap) (z_scaling base_thickness : ℚ) : List Vertex :=
  let z_scale_factor := z_scaling * (hm.x_res : ℚ) / hm.bounds.x_range
  hm.data.enum.map (fun ih =>
    ⟨((ih.1 % hm.x_res : ℕ) : ℚ), ((ih.1 / hm.x_res : ℕ) : ℚ),
      normal_pos_or_default (ih.2 - hm.bounds.min_z) 0 * z_scale_factor + base_thickness⟩)

/-- The bottom vertex list of stl.rs `save_as_stl`: same positions at `z = 0`. -/
def HeightMap.bottom_vertex_list (hm : HeightMap) : List Vertex :=
  hm.data.enum.map (fun ih =>
    ⟨((ih.1 % hm.x_res : ℕ) : ℚ), ((ih.1 / hm.x_res : ℕ) : ℚ), 0⟩)

/-- A Rust `for i in 0..n` loop extending a triangle list with a fallible
body: errors propagate (the `?` operator), results are appended in order. -/
def extendLoop (f : ℕ → Except LasToStlError (List Triangle)) :
    ℕ → Except LasToStlError (List Triangle)
  | 0 => Except.ok []
  | n + 1 => do
    let acc ← extendLoop f n
    let t ← f n
    pure (acc ++ t)

/-- The quad body of the `save_as_stl` top/bottom loop: two top-face
triangles then two bottom-face triangles, with the indices checked through
`x_y_to_index` (`?`). -/
def stlTopBottomQuadBody (x_res y_res : ℕ) (top bottom : List Vertex) (x y : ℕ) :
    Except LasToStlError (List Triangle) := do
  let i1 ← x_y_to_index x_res y_res x y
  let i2 ← x_y_to_index x_res y_res x (y + 1)
  let i3 ← x_y_to_index x_res y_res (x + 1) (y + 1)
  let i4 ← x_y_to_index x_res y_res (x + 1) y
  let j1 ← x_y_to_index x_res y_res (x + 1) y
  let j2 ← x_y_to_index x_res y_res (x + 1) (y + 1)
  let j3 ← x_y_to_index x_res y_res x (y + 1)
  let j4 ← x_y_to_index x_res y_res x y
  pure (vertex_rec_to_triangles_diagonal (top.getD i1 dfltVertex) (top.getD i2 dfltVertex)
          (top.getD i3 dfltVertex) (top.getD i4 dfltVertex) ⟨0, 0, 1⟩ ++
        vertex_rec_to_triangles_diagonal (bottom.getD j1 dfltVertex) (bottom.getD j2 dfltVertex)
          (bottom.getD j3 dfltVertex) (bottom.getD j4 dfltVertex) ⟨0, 0, -1⟩)

/-- The north wall body of `save_as_stl` (`y = y_res - 1`, normal `+Y`). -/
def stlNorthBody (x_res y_res : ℕ) (top bottom : List Vertex) (x : ℕ) :
    Except LasToStlError (List Triangle) := do
  let i1 ← x_y_to_index x_res y_res (x + 1) (y_res - 1)
  let i2 ← x_y_to_index x_res y_res x (y_res - 1)
  let i3 ← x_y_to_index x_res y_res x (y_res - 1)
  let i4 ← x_y_to_index x_res y_res (x + 1) (y_res - 1)
  pure (vertex_rec_to_triangles_diagonal (top.getD i1 dfltVertex) (top.getD i2 dfltVertex)
    (bottom.getD i3 dfltVertex) (bottom.getD i4 dfltVertex) ⟨0, 1, 0⟩)

/-- The south wall body of `save_as_stl` (`y = 0`, normal `-Y`). -/
def stlSouthBody (x_res y_res : ℕ) (top bottom : List Vertex) (x : ℕ) :
    Except LasToStlError (List Triangle) := do
  let i1 ← x_y_to_index x_res y_res x 0
  let i2 ← x_y_to_index x_res y_res (x + 1) 0
  let i3 ← x_y_to_index x_res y_res (x + 1) 0
  let i4 ← x_y_to_index x_res y_res x 0
  pure (vertex_rec_to_triangles_diagonal (top.getD i1 dfltVertex) (top.getD i2 dfltVertex)
    (bottom.getD i3 dfltVertex) (bottom.getD i4 dfltVertex) ⟨0, -1, 0⟩)

/-- The east wall body of `save_as_stl` (`x = x_res - 1`, normal `+X`). -/
def stlEastBody (x_res y_res : ℕ) (top bottom : List Vertex) (y : ℕ) :
    Except LasToStlError (List Triangle) := do
  let i1 ← x_y_to_index x_res y_res (x_res - 1) (y + 1)
  let i2 ← x_y_to_index x_res y_res (x_res - 1) y
  let i3 ← x_y_to_index x_res y_res (x_res - 1) y
  let i4 ← x_y_to_index x_res y_res (x_res - 1) (y + 1)
  pure (vertex_rec_to_triangles_diagonal (top.getD i1 dfltVertex) (top.getD i2 dfltVertex)
    (bottom.getD i3 dfltVertex) (bottom.getD i4 dfltVertex) ⟨1, 0, 0⟩)

/-- The west wall body of `save_as_stl` (`x = 0`, normal `-X`). -/
def stlWestBody (x_res y_res : ℕ) (top bottom : List Vertex) (y : ℕ) :
    Except LasToStlError (List Triangle) := do
  let i1 ← x_y_to_index x_res y_res 0 y
  let i2 ← x_y_to_index x_res y_res 0 (y + 1)
  let i3 ← x_y_to_index x_res y_res 0 (y + 1)
  let i4 ← x_y_to_index x_res y_res 0 y
  pure (vertex_rec_to_triangles_diagonal (top.getD i1 dfltVertex) (top.getD i2 dfltVertex)
    (bottom.getD i3 dfltVertex) (bottom.getD i4 dfltVertex) ⟨-1, 0, 0⟩)

/-- stl.rs `HeightMap::save_as_stl`, up to the file write: the triangle list
it assembles (top/bottom quads, then the north, south, east and west
walls). -/
def HeightMap.save_as_stl_triangles (hm : HeightMap) (z_scaling base_thickness : ℚ) :
    Except LasToStlError (List Triangle) := do
  let top := hm.top_vertex_list z_scaling base_thickness
  let bottom := hm.bottom_vertex_list
  let topBottom ← extendLoop
    (fun x => extendLoop (stlTopBottomQuadBody hm.x_res hm.y_res top bottom x) (hm.y_res - 1))
    (hm.x_res - 1)
  let north ← extendLoop (stlNorthBody hm.x_res hm.y_res top bottom) (hm.x_res - 1)
  let south ← extendLoop (stlSouthBody hm.x_res hm.y_res top bottom) (hm.x_res - 1)
  let east ← extendLoop (stlEastBody hm.x_res hm.y_res top bottom) (hm.y_res - 1)
  let west ← extendLoop (stlWestBody hm.x_res hm.y_res top bottom) (hm.y_res - 1)
  pure (topBottom ++ north ++ south ++ east ++ west)

/-! ### C3: triangle count of the unmasked generator -/

lemma x_y_to_index_ok {x_res y_res x y : ℕ} (hx : x < x_res) (hy : y < y_res) :
    x_y_to_index x_res y_res x y = Except.ok (y * x_res + x) := by
  simp [x_y_to_index, hx, hy]

lemma extendLoop_length (f : ℕ → Except LasToStlError (List Triangle)) (n c : ℕ)
    (h : ∀ i, i < n → ∃ l, f i = Except.ok l ∧ l.length = c) :
    ∃ L, extendLoop f n = Except.ok L ∧ L.length = n * c := by
  induction n with
  | zero => exact ⟨[], rfl, by simp⟩
  | succ k ih =>
    obtain ⟨L, hL, hLlen⟩ := ih (fun i hi => h i (by omega))
    obtain ⟨l, hl, hllen⟩ := h k (by omega)
    refine ⟨L ++ l, ?_, ?_⟩
    · rw [extendLoop, hL, hl]
      rfl
    · simp [hLlen, hllen]
      ring

lemma stlTopBottomQuadBody_length (x_res y_res : ℕ) (top bottom : List Vertex) (x y : ℕ)
    (hx : x + 1 < x_res) (hy : y + 1 < y_res) :
    ∃ l, stlTopBottomQuadBody x_res y_res top bottom x y = Except.ok l ∧ l.length = 4 := by
  unfold stlTopBottomQuadBody
  rw [x_y_to_index_ok (show x < x_res by omega) (show y < y_res by omega),
    x_y_to_index_ok (show x < x_res by omega) hy,
    x_y_to_index_ok hx hy,
    x_y_to_index_ok hx (show y < y_res by omega)]
  exact ⟨_, rfl, rfl⟩

lemma stlNorthBody_length (x_res y_res : ℕ) (top bottom : List Vertex) (x : ℕ)
    (hx : x + 1 < x_res) (hy : 1 ≤ y_res) :
    ∃ l, stlNorthBody x_res y_res top bottom x = Except.ok l ∧ l.length = 2 := by
  unfold stlNorthBody
  rw [x_y_to_index_ok hx (show y_res - 1 < y_res by omega),
    x_y_to_index_ok (show x < x_res by omega) (show y_res - 1 < y_res by omega)]
  exact ⟨_, rfl, rfl⟩

lemma stlSouthBody_length (x_res y_res : ℕ) (top bottom : List Vertex) (x : ℕ)
    (hx : x + 1 < x_res) (hy : 1 ≤ y_res) :
    ∃ l, stlSouthBody x_res y_res top bottom x = Except.ok l ∧ l.length = 2 := by
  unfold stlSouthBody
  rw [x_y_to_index_ok (show x < x_res by omega) (show 0 < y_res by omega),
    x_y_to_index_ok hx (show 0 < y_res by omega)]
  exact ⟨_, rfl, rfl⟩

lemma stlEastBody_length (x_res y_res : ℕ) (top bottom : List Vertex) (y : ℕ)
    (hx : 1 ≤ x_res) (hy : y + 1 < y_res) :
    ∃ l, stlEastBody x_res y_res top bottom y = Except.ok l ∧ l.length = 2 := by
  unfold stlEastBody
  rw [x_y_to_index_ok (show x_res - 1 < x_res by omega) hy,
    x_y_to_index_ok (show x_res - 1 < x_res by omega) (show y < y_res by omega)]
  exact ⟨_, rfl, rfl⟩

lemma stlWestBody_length (x_res y_res : ℕ) (top bottom : List Vertex) (y : ℕ)
    (hx : 1 ≤ x_res) (hy : y + 1 < y_res) :
    ∃ l, stlWestBody x_res y_res top bottom y = Except.ok l ∧ l.length = 2 := by
  unfold stlWestBody
  rw [x_y_to_index_ok (show (0 : ℕ) < x_res by omega) hy,
    x_y_to_index_ok (show (0 : ℕ) < x_res by omega) (show y < y_res by omega)]
  exact ⟨_, rfl, rfl⟩

/-- C3: for every height grid with `x_res ≥ 2` and `y_res ≥ 2` the unmasked
generator emits exactly `4(x_res-1)(y_res-1) + 4(x_res-1) + 4(y_res-1)`
triangles: two per quad for the top surface, two per quad for the bottom, and
two per edge cell for each of the four walls. -/
theorem C3_unmasked_stl_triangle_count (hm : HeightMap) (z_scaling base_thickness : ℚ)
    (hx : 2 ≤ hm.x_res) (hy : 2 ≤ hm.y_res) :
    (hm.save_as_stl_triangles z_scaling base_thickness).map List.length =
      Except.ok (4 * (hm.x_res - 1) * (hm.y_res - 1) +
        4 * (hm.x_res - 1) + 4 * (hm.y_res - 1)) := by
  obtain ⟨Ltb, hLtb, hLtbLen⟩ := extendLoop_length
    (fun x => extendLoop (stlTopBottomQuadBody hm.x_res hm.y_res
      (hm.top_vertex_list z_scaling base_thickness) hm.bottom_vertex_list x) (hm.y_res - 1))
    (hm.x_res - 1) ((hm.y_res - 1) * 4)
    (fun x hx2 => extendLoop_length _ (hm.y_res - 1) 4
      (fun y hy2 => stlTopBottomQuadBody_length _ _ _ _ x y (by omega) (by omega)))
  obtain ⟨Ln, hLn, hLnLen⟩ := extendLoop_length
    (stlNorthBody hm.x_res hm.y_res
      (hm.top_vertex_list z_scaling base_thickness) hm.bottom_vertex_list)
    (hm.x_res - 1) 2
    (fun x hx2 => stlNorthBody_length _ _ _ _ x (by omega) (by omega))
  obtain ⟨Ls, hLs, hLsLen⟩ := extendLoop_length
    (stlSouthBody hm.x_res hm.y_res
      (hm.top_vertex_list z_scaling base_thickness) hm.bottom_vertex_list)
    (hm.x_res - 1) 2
    (fun x hx2 => stlSouthBody_length _ _ _ _ x (by omega) (by omega))
  obtain ⟨Le, hLe, hLeLen⟩ := extendLoop_length
    (stlEastBody hm.x_res hm.y_res
      (hm.top_vertex_list z_scaling base_thickness) hm.bottom_vertex_list)
    (hm.y_res - 1) 2
    (fun y hy2 => stlEastBody_length _ _ _ _ y (by omega) (by omega))
  obtain ⟨Lw, hLw, hLwLen⟩ := extendLoop_length
    (stlWestBody hm.x_res hm.y_res
      (hm.top_vertex_list z_scaling base_thickness) hm.bottom_vertex_list)
    (hm.y_res - 1) 2
    (fun y hy2 => stlWestBody_length _ _ _ _ y (by omega) (by omega))
  simp only [HeightMap.save_as_stl_triangles]
  rw [hLtb, hLn, hLs, hLe, hLw]
  show Except.ok ((((Ltb ++ Ln) ++ Ls) ++ Le) ++ Lw).length = _
  refine congrArg Except.ok ?_
  simp [List.length_append, hLtbLen, hLnLen, hLsLen, hLeLen, hLwLen]
  ring

/-- A 3×3 all-zero height grid over a 2×2 extent. -/
def c3Hm : HeightMap :=
  { data := List.replicate 9 0, x_res := 3, y_res := 3, bounds := ⟨0, 2, 0, 2, 0, 1⟩ }

/-- Witness for C3: the 3×3 all-zero grid with `z_scaling = 1` and
`base_thickness = 0` yields exactly 32 triangles. -/
theorem C3_unmasked_stl_triangle_count_witness :
    2 ≤ c3Hm.x_res ∧ 2 ≤ c3Hm.y_res ∧
    (c3Hm.save_as_stl_triangles 1 0).map List.length = Except.ok 32 :=
  ⟨by decide, by decide,
    C3_unmasked_stl_triangle_count c3Hm 1 0 (by decide) (by decide)⟩

/-! ### stl.rs: the boundary helper mask -/

/-- stl.rs `StlHelperMask`. -/
structure StlHelperMask where
  data : List Bool
  x_res : ℕ
  y_res : ℕ
deriving DecidableEq, Repr

/-- The write loop of `From<&Mask> for StlHelperMask`: a `vec![false; nx*ny]`
filled by `for x in 0..nx { for y in 0..ny { v[y*nx + x] = f x y } }`. -/
def fillByXY (nx ny : ℕ) (f : ℕ → ℕ → Bool) : List Bool :=
  (List.range nx).foldl (fun acc x =>
    (List.range ny).foldl (fun acc2 y => acc2.set (y * nx + x) (f x y)) acc)
    (List.replicate (nx * ny) false)

/-- stl.rs `impl From<&Mask> for StlHelperMask`: shrink by one in each
dimension; a shrunk cell is true when neighbors 1, 2, 4 and 5 of
`get_neighbors` — the 2×2 block `{(x,y+1),(x+1,y+1),(x,y),(x+1,y)}` — are all
true. -/
def StlHelperMask.fromMask (mask : Mask) : StlHelperMask :=
  let new_mask_x_res : ℕ := mask.x_res - 1
  let new_mask_y_res : ℕ := mask.y_res - 1
  { data := fillByXY new_mask_x_res new_mask_y_res (fun x y =>
      let neighbors := mask.get_neighbors x y
      neighbors.getD 1 false && neighbors.getD 2 false &&
        neighbors.getD 4 false && neighbors.getD 5 false)
    x_res := new_mask_x_res
    y_res := new_mask_y_res }

/-- stl.rs `StlHelperMask::get_by_xy_unchecked`. -/
def StlHelperMask.get_by_xy_unchecked (h : StlHelperMask) (x y : ℕ) : Bool :=
  h.data.getD (y * h.x_res + x) false

/-- stl.rs `StlHelperMask::get_by_xy_checked`. -/
def StlHelperMask.get_by_xy_checked (h : StlHelperMask) (x y : ℤ) :
    Except LasToStlError Bool :=
  if x < (h.x_res : ℤ) ∧ y < (h.y_res : ℤ) ∧ 0 ≤ x ∧ 0 ≤ y then
    Except.ok (h.get_by_xy_unchecked x.toNat y.toNat)
  else
    Except.error (LasToStlError.GetByXyCheckedError h.x_res h.y_res x y)

/-- stl.rs `StlHelperMask::get_cardinal_edge`: the cells that are true but
whose neighbor in the given direction (out-of-range counting as false) is
false, scanned x-outer / y-inner. -/
def StlHelperMask.get_cardinal_edge (h : StlHelperMask)
    (use_x_axis check_positive_edge : Bool) : List (ℕ × ℕ) :=
  let offsets : ℤ × ℤ :=
    if use_x_axis then
      (if check_positive_edge then (1, 0) else (-1, 0))
    else
      (0, if check_positive_edge then (1 : ℤ) else -1)
  (List.range h.x_res).foldl (fun out_vec x =>
    (List.range h.y_res).foldl (fun ov y =>
      if h.get_by_xy_unchecked x y &&
          !(match h.get_by_xy_checked ((x : ℤ) + offsets.1) ((y : ℤ) + offsets.2) with
            | Except.ok s => s
            | Except.error _ => false) then
        ov ++ [(x, y)]
      else
        ov) out_vec) []

/-! ### C9: the boundary helper mask -/

lemma innerFold_length (nx ny : ℕ) (f : ℕ → ℕ → Bool) (x : ℕ) (acc : List Bool) :
    ((List.range ny).foldl (fun acc2 y => acc2.set (y * nx + x) (f x y)) acc).length =
      acc.length := by
  induction ny with
  | zero => rfl
  | succ k ih =>
    rw [List.range_succ, List.foldl_append, List.foldl_cons, List.foldl_nil,
      List.length_set, ih]

lemma innerFold_getD_hit (nx ny : ℕ) (f : ℕ → ℕ → Bool) (x : ℕ) (acc : List Bool)
    (y : ℕ) (hnx : 0 < nx) (hy : y < ny) (hlt : y * nx + x < acc.length) :
    ((List.range ny).foldl (fun acc2 y => acc2.set (y * nx + x) (f x y)) acc).getD
      (y * nx + x) false = f x y := by
  induction ny with
  | zero => omega
  | succ k ih =>
    rw [List.range_succ, List.foldl_append, List.foldl_cons, List.foldl_nil]
    by_cases hyk : y = k
    · subst hyk
      rw [List.getD_eq_getElem?_getD, List.getElem?_set_self (by rw [innerFold_length]; omega)]
      rfl
    · have hne : k * nx + x ≠ y * nx + x := by
        intro he
        have h2 : y * nx = k * nx := by omega
        exact hyk (Nat.eq_of_mul_eq_mul_right hnx h2)
      rw [List.getD_eq_getElem?_getD, List.getElem?_set_ne hne,
        ← List.getD_eq_getElem?_getD]
      exact ih (by omega)

lemma innerFold_getD_miss (nx ny : ℕ) (f : ℕ → ℕ → Bool) (x : ℕ) (acc : List Bool)
    (i : ℕ) (hmiss : ∀ y, y < ny → i ≠ y * nx + x) :
    ((List.range ny).foldl (fun acc2 y => acc2.set (y * nx + x) (f x y)) acc).getD
      i false = acc.getD i false := by
  induction ny with
  | zero => rfl
  | succ k ih =>
    rw [List.range_succ, List.foldl_append, List.foldl_cons, List.foldl_nil]
    rw [List.getD_eq_getElem?_getD, List.getElem?_set_ne (Ne.symm (hmiss k (by omega))),
      ← List.getD_eq_getElem?_getD]
    exact ih (fun y hy => hmiss y (by omega))

lemma outerFold_length (nx ny : ℕ) (f : ℕ → ℕ → Bool) (n : ℕ) (acc : List Bool) :
    ((List.range n).foldl (fun acc x =>
      (List.range ny).foldl (fun acc2 y => acc2.set (y * nx + x) (f x y)) acc) acc).length =
      acc.length := by
  induction n with
  | zero => rfl
  | succ k ih =>
    rw [List.range_succ, List.foldl_append, List.foldl_cons, List.foldl_nil,
      innerFold_length, ih]

lemma fillByXY_length (nx ny : ℕ) (f : ℕ → ℕ → Bool) :
    (fillByXY nx ny f).length = nx * ny := by
  rw [fillByXY, outerFold_length, List.length_replicate]

lemma fillByXY_getD (nx ny : ℕ) (f : ℕ → ℕ → Bool) (x y : ℕ)
    (hx : x < nx) (hy : y < ny) :
    (fillByXY nx ny f).getD (y * nx + x) false = f x y := by
  have hbound : y * nx + x < nx * ny := by
    calc y * nx + x < (y + 1) * nx := by
          rw [Nat.add_mul, Nat.one_mul]
          omega
      _ ≤ ny * nx := Nat.mul_le_mul_right _ (by omega)
      _ = nx * ny := Nat.mul_comm _ _
  suffices h : ∀ n, n ≤ nx → x < n →
      ((List.range n).foldl (fun acc x =>
        (List.range ny).foldl (fun acc2 y => acc2.set (y * nx + x) (f x y)) acc)
        (List.replicate (nx * ny) false)).getD (y * nx + x) false = f x y by
    exact h nx le_rfl hx
  intro n
  induction n with
  | zero => omega
  | succ k ih =>
    intro hkn hxk
    rw [List.range_succ, List.foldl_append, List.foldl_cons, List.foldl_nil]
    by_cases hxk2 : x = k
    · subst hxk2
      exact innerFold_getD_hit nx ny f x _ y (by omega) hy
        (by rw [outerFold_length, List.length_replicate]; omega)
    · have hmiss : ∀ y2, y2 < ny → y * nx + x ≠ y2 * nx + k := by
        intro y2 hy2 he
        have h1 : (y * nx + x) % nx = x := by
          rw [Nat.mul_comm, Nat.mul_add_mod]
          exact Nat.mod_eq_of_lt hx
        have h2 : (y2 * nx + k) % nx = k := by
          rw [Nat.mul_comm, Nat.mul_add_mod]
          exact Nat.mod_eq_of_lt (by omega)
        rw [he, h2] at h1
        exact hxk2 h1.symm
      rw [innerFold_getD_miss nx ny f k _ _ hmiss]
      exact ih (by omega) (by omega)

lemma get_by_xy_checked_in_range (m : Mask) (x y : ℕ) (hx : x < m.x_res) (hy : y < m.y_res) :
    m.get_by_xy_checked (x : ℤ) (y : ℤ) = Except.ok (m.get_by_xy_unchecked x y) := by
  unfold Mask.get_by_xy_checked
  rw [if_pos ⟨by exact_mod_cast hx, by exact_mod_cast hy, Int.natCast_nonneg x,
    Int.natCast_nonneg y⟩]
  simp

/-- C9: the boundary helper mask derived from a mask of resolution
`x_res × y_res` has resolution `(x_res - 1) × (y_res - 1)`, and its cell
`(x, y)` is true exactly when the four original cells `(x, y)`, `(x+1, y)`,
`(x, y+1)`, `(x+1, y+1)` are all true. -/
theorem C9_helper_mask_shrink (m : Mask) (hwf : m.data.length = m.x_res * m.y_res)
    (hx1 : 1 ≤ m.x_res) (hy1 : 1 ≤ m.y_res) :
    (StlHelperMask.fromMask m).x_res = m.x_res - 1 ∧
    (StlHelperMask.fromMask m).y_res = m.y_res - 1 ∧
    (∀ x y, x < m.x_res - 1 → y < m.y_res - 1 →
      (StlHelperMask.fromMask m).data.getD (y * (m.x_res - 1) + x) false =
        (m.get_by_xy_unchecked x y && m.get_by_xy_unchecked (x + 1) y &&
         m.get_by_xy_unchecked x (y + 1) && m.get_by_xy_unchecked (x + 1) (y + 1))) := by
  refine ⟨rfl, rfl, fun x y hx hy => ?_⟩
  show (fillByXY (m.x_res - 1) (m.y_res - 1) _).getD (y * (m.x_res - 1) + x) false = _
  rw [fillByXY_getD _ _ _ x y hx hy]
  have e1 : ((x : ℤ) + 0) = ((x : ℕ) : ℤ) := by ring
  have e2 : ((y : ℤ) + 1) = (((y + 1 : ℕ)) : ℤ) := by push_cast; ring
  have e3 : ((x : ℤ) + 1) = (((x + 1 : ℕ)) : ℤ) := by push_cast; ring
  have e4 : ((y : ℤ) + 0) = ((y : ℕ) : ℤ) := by ring
  simp only [Mask.get_neighbors, neighborMap, List.map_cons, List.map_nil, List.getD,
    List.getElem?_cons_zero, List.getElem?_cons_succ, Option.getD_some, List.getD_cons_succ,
    List.getD_cons_zero]
  rw [e1, e2, e3, e4]
  rw [get_by_xy_checked_in_range m x (y + 1) (by omega) (by omega),
    get_by_xy_checked_in_range m (x + 1) (y + 1) (by omega) (by omega),
    get_by_xy_checked_in_range m x y (by omega) (by omega),
    get_by_xy_checked_in_range m (x + 1) y (by omega) (by omega)]
  cases m.get_by_xy_unchecked x y <;> cases m.get_by_xy_unchecked (x + 1) y <;>
    cases m.get_by_xy_unchecked x (y + 1) <;> cases m.get_by_xy_unchecked (x + 1) (y + 1) <;>
    rfl

/-- A 2×2 all-true mask for the C9 witness. -/
def c9m : Mask :=
  { data := [true, true, true, true], x_res := 2, y_res := 2,
    x_tick := 1, y_tick := 1, bounds := c1Box }

/-- Witness for C9: the helper mask of the 2×2 all-true mask is 1×1 with its
single cell true. -/
theorem C9_helper_mask_shrink_witness :
    (c9m.data.length = c9m.x_res * c9m.y_res ∧ 1 ≤ c9m.x_res ∧ 1 ≤ c9m.y_res ∧
      0 < c9m.x_res - 1 ∧ 0 < c9m.y_res - 1) ∧
    (StlHelperMask.fromMask c9m).x_res = c9m.x_res - 1 ∧
    (StlHelperMask.fromMask c9m).y_res = c9m.y_res - 1 ∧
    (StlHelperMask.fromMask c9m).data.getD 0 false =
      (c9m.get_by_xy_unchecked 0 0 && c9m.get_by_xy_unchecked 1 0 &&
       c9m.get_by_xy_unchecked 0 1 && c9m.get_by_xy_unchecked 1 1) :=
  ⟨⟨by decide, by decide, by decide, by decide, by decide⟩,
   (C9_helper_mask_shrink c9m (by decide) (by decide) (by decide)).1,
   (C9_helper_mask_shrink c9m (by decide) (by decide) (by decide)).2.1,
   (C9_helper_mask_shrink c9m (by decide) (by decide) (by decide)).2.2 0 0
     (by decide) (by decide)⟩

/-! ### stl.rs: the masked generator -/

/-- The top vertex list of `save_as_stl_masked`: cells whose mask entry is
false produce no vertex.  The source indexes `mask.data[index]` directly,
which panics when the mask data is shorter than the height data; the `getD`
embedding reads `false` there instead, so the two agree on every state where
the mask is at least as long as the height data. -/
def HeightMap.top_vertex_list_masked (hm : HeightMap) (mask : Mask)
    (z_scaling base_thickness : ℚ) : List (Option Vertex) :=
  let z_scale_factor := z_scaling * (hm.x_res : ℚ) / hm.bounds.x_range
  hm.data.enum.map (fun ih =>
    match mask.data.getD ih.1 false with
    | false => none
    | true => some ⟨((ih.1 % hm.x_res : ℕ) : ℚ), ((ih.1 / hm.x_res : ℕ) : ℚ),
        normal_pos_or_default (ih.2 - hm.bounds.min_z) 0 * z_scale_factor + base_thickness⟩)

/-- The bottom vertex list of `save_as_stl_masked`; the mask read is embedded
as in `top_vertex_list_masked`. -/
def HeightMap.bottom_vertex_list_masked (hm : HeightMap) (mask : Mask) :
    List (Option Vertex) :=
  hm.data.enum.map (fun ih =>
    match mask.data.getD ih.1 false with
    | false => none
    | true => some ⟨((ih.1 % hm.x_res : ℕ) : ℚ), ((ih.1 / hm.x_res : ℕ) : ℚ), 0⟩)

/-- The quad body of the `save_as_stl_masked` top/bottom loop: the optional
top and bottom faces, each emitted only when all four corner vertices
exist. -/
def stlMaskedQuadBody (x_res y_res : ℕ) (top bottom : List (Option Vertex)) (x y : ℕ) :
    Except LasToStlError (List Triangle) := do
  let i1 ← x_y_to_index x_res y_res x y
  let i2 ← x_y_to_index x_res y_res x (y + 1)
  let i3 ← x_y_to_index x_res y_res (x + 1) (y + 1)
  let i4 ← x_y_to_index x_res y_res (x + 1) y
  let top_vertices := option_vertex_rec_to_triangles_diagonal (top.getD i1 none)
    (top.getD i2 none) (top.getD i3 none) (top.getD i4 none) ⟨0, 0, 1⟩
  let j1 ← x_y_to_index x_res y_res (x + 1) y
  let j2 ← x_y_to_index x_res y_res (x + 1) (y + 1)
  let j3 ← x_y_to_index x_res y_res x (y + 1)
  let j4 ← x_y_to_index x_res y_res x y
  let bottom_vertices := option_vertex_rec_to_triangles_diagonal (bottom.getD j1 none)
    (bottom.getD j2 none) (bottom.getD j3 none) (bottom.getD j4 none) ⟨0, 0, -1⟩
  pure ((top_vertices.getD []) ++ (bottom_vertices.getD []))

/-- One of the four side-wall loops of `save_as_stl_masked`: for each flagged
edge the step is run; a `some` face pair is appended, a `none` (a face
referencing an absent vertex) is logged and skipped — not an error. -/
def edgeFaceLoop (step : ℕ × ℕ → Except LasToStlError (Option (List Triangle))) :
    List (ℕ × ℕ) → Except LasToStlError (List Triangle)
  | [] => Except.ok []
  | edge_coord :: rest => do
    let o ← step edge_coord
    let others ← edgeFaceLoop step rest
    match o with
    | some faces => pure (faces ++ others)
    | none => pure others

/-- The `x_pos_edges` (east) step of `save_as_stl_masked`. -/
def xPosEdgeStep (x_res y_res : ℕ) (top bottom : List (Option Vertex))
    (edge_coord : ℕ × ℕ) : Except LasToStlError (Option (List Triangle)) := do
  let i1 ← x_y_to_index x_res y_res (edge_coord.1 + 1) (edge_coord.2 + 1)
  let i2 ← x_y_to_index x_res y_res (edge_coord.1 + 1) edge_coord.2
  let i3 ← x_y_to_index x_res y_res (edge_coord.1 + 1) edge_coord.2
  let i4 ← x_y_to_index x_res y_res (edge_coord.1 + 1) (edge_coord.2 + 1)
  pure (option_vertex_rec_to_triangles_diagonal (top.getD i1 none) (top.getD i2 none)
    (bottom.getD i3 none) (bottom.getD i4 none) ⟨1, 0, 0⟩)

/-- The `x_neg_edges` (west) step of `save_as_stl_masked`. -/
def xNegEdgeStep (x_res y_res : ℕ) (top bottom : List (Option Vertex))
    (edge_coord : ℕ × ℕ) : Except LasToStlError (Option (List Triangle)) := do
  let i1 ← x_y_to_index x_res y_res edge_coord.1 edge_coord.2
  let i2 ← x_y_to_index x_res y_res edge_coord.1 (edge_coord.2 + 1)
  let i3 ← x_y_to_index x_res y_res edge_coord.1 (edge_coord.2 + 1)
  let i4 ← x_y_to_index x_res y_res edge_coord.1 edge_coord.2
  pure (option_vertex_rec_to_triangles_diagonal (top.getD i1 none) (top.getD i2 none)
    (bottom.getD i3 none) (bottom.getD i4 none) ⟨-1, 0, 0⟩)

/-- The `y_pos_edges` (north) step of `save_as_stl_masked`. -/
def yPosEdgeStep (x_res y_res : ℕ) (top bottom : List (Option Vertex))
    (edge_coord : ℕ × ℕ) : Except LasToStlError (Option (List Triangle)) := do
  let i1 ← x_y_to_index x_res y_res (edge_coord.1 + 1) (edge_coord.2 + 1)
  let i2 ← x_y_to_index x_res y_res edge_coord.1 (edge_coord.2 + 1)
  let i3 ← x_y_to_index x_res y_res edge_coord.1 (edge_coord.2 + 1)
  let i4 ← x_y_to_index x_res y_res (edge_coord.1 + 1) (edge_coord.2 + 1)
  pure (option_vertex_rec_to_triangles_diagonal (top.getD i1 none) (top.getD i2 none)
    (bottom.getD i3 none) (bottom.getD i4 none) ⟨0, 1, 0⟩)

/-- The `y_neg_edges` (south) step of `save_as_stl_masked`. -/
def yNegEdgeStep (x_res y_res : ℕ) (top bottom : List (Option Vertex))
    (edge_coord : ℕ × ℕ) : Except LasToStlError (Option (List Triangle)) := do
  let i1 ← x_y_to_index x_res y_res edge_coord.1 edge_coord.2
  let i2 ← x_y_to_index x_res y_res (edge_coord.1 + 1) edge_coord.2
  let i3 ← x_y_to_index x_res y_res (edge_coord.1 + 1) edge_coord.2
  let i4 ← x_y_to_index x_res y_res edge_coord.1 edge_coord.2
  pure (option_vertex_rec_to_triangles_diagonal (top.getD i1 none) (top.getD i2 none)
    (bottom.getD i3 none) (bottom.getD i4 none) ⟨0, -1, 0⟩)

/-- stl.rs `HeightMap::save_as_stl_masked`, up to the file write: the masked
top/bottom quads, then the four side-wall loops driven by the cardinal-edge
scans of the derived boundary helper mask. -/
def HeightMap.save_as_stl_masked_triangles (hm : HeightMap) (mask : Mask)
    (z_scaling base_thickness : ℚ) : Except LasToStlError (List Triangle) := do
  let top := hm.top_vertex_list_masked mask z_scaling base_thickness
  let bottom := hm.bottom_vertex_list_masked mask
  let topBottom ← extendLoop
    (fun x => extendLoop (stlMaskedQuadBody hm.x_res hm.y_res top bottom x) (hm.y_res - 1))
    (hm.x_res - 1)
  let stl_helper_mask := StlHelperMask.fromMask mask
  let x_pos_edges := stl_helper_mask.get_cardinal_edge true true
  let x_neg_edges := stl_helper_mask.get_cardinal_edge true false
  let y_pos_edges := stl_helper_mask.get_cardinal_edge false true
  let y_neg_edges := stl_helper_mask.get_cardinal_edge false false
  let east ← edgeFaceLoop (xPosEdgeStep hm.x_res hm.y_res top bottom) x_pos_edges
  let west ← edgeFaceLoop (xNegEdgeStep hm.x_res hm.y_res top bottom) x_neg_edges
  let north ← edgeFaceLoop (yPosEdgeStep hm.x_res hm.y_res top bottom) y_pos_edges
  let south ← edgeFaceLoop (yNegEdgeStep hm.x_res hm.y_res top bottom) y_neg_edges
  pure (topBottom ++ east ++ west ++ north ++ south)

/-! ### C2: behavior of the side-wall loops on missing vertices -/

/-- A 2×2 masked top vertex list with the vertex of cell `(1, 0)` absent. -/
def c2Top : List (Option Vertex) :=
  [some ⟨0, 0, 0⟩, none, some ⟨0, 1, 0⟩, some ⟨1, 1, 0⟩]

/-- A 2×2 masked bottom vertex list with all vertices present. -/
def c2Bot : List (Option Vertex) :=
  [some ⟨0, 0, 0⟩, some ⟨1, 0, 0⟩, some ⟨0, 1, 0⟩, some ⟨1, 1, 0⟩]

/-- C2 counterexample: the east side-wall loop, fed the flagged edge `(0, 0)`
whose face references the absent top vertex of cell `(1, 0)`, completes with
success and zero faces — it skips the face rather than failing with
`StlSideFaceGenerationError`. -/
theorem C2_counterexample :
    c2Top.getD 1 none = none ∧
    edgeFaceLoop (xPosEdgeStep 2 2 c2Top c2Bot) [(0, 0)] = Except.ok [] := by
  exact ⟨rfl, rfl⟩

lemma x_y_to_index_error {x_res y_res x y : ℕ} {er : LasToStlError}
    (h : x_y_to_index x_res y_res x y = Except.error er) :
    er = LasToStlError.BadIndexError x_res y_res x y := by
  unfold x_y_to_index at h
  split at h
  · exact absurd h (by simp)
  · injection h with h2
    exact h2.symm

lemma exceptBindError {α β : Type} {ma : Except LasToStlError α}
    {f : α → Except LasToStlError β} {er : LasToStlError}
    (h : (ma >>= f) = Except.error er) :
    ma = Except.error er ∨ ∃ a, ma = Except.ok a ∧ f a = Except.error er := by
  cases ma with
  | error e =>
    left
    have h2 : (Except.error e : Except LasToStlError β) = Except.error er := h
    injection h2 with h3
    rw [h3]
  | ok a =>
    right
    exact ⟨a, rfl, h⟩

/-- Errors of `LasToStlError` that are index errors. -/
def isBadIndexError (er : LasToStlError) : Prop :=
  ∃ a b c d, er = LasToStlError.BadIndexError a b c d

lemma exceptOk_ne_error {α : Type} {a : α} {er : LasToStlError}
    (h : (Except.ok a : Except LasToStlError α) = Except.error er) : False :=
  Except.noConfusion h

lemma isBadIndexError_ne_side {er : LasToStlError} (h : isBadIndexError er) :
    er ≠ LasToStlError.StlSideFaceGenerationError := by
  obtain ⟨a, b, c, d, rfl⟩ := h
  intro hc
  exact LasToStlError.noConfusion hc

lemma stlMaskedQuadBody_error {x_res y_res : ℕ} {top bottom : List (Option Vertex)}
    {x y : ℕ} {er : LasToStlError}
    (h : stlMaskedQuadBody x_res y_res top bottom x y = Except.error er) :
    isBadIndexError er := by
  unfold stlMaskedQuadBody at h
  rcases exceptBindError h with h1 | ⟨i1, hi1, h⟩
  · exact ⟨_, _, _, _, x_y_to_index_error h1⟩
  rcases exceptBindError h with h1 | ⟨i2, hi2, h⟩
  · exact ⟨_, _, _, _, x_y_to_index_error h1⟩
  rcases exceptBindError h with h1 | ⟨i3, hi3, h⟩
  · exact ⟨_, _, _, _, x_y_to_index_error h1⟩
  rcases exceptBindError h with h1 | ⟨i4, hi4, h⟩
  · exact ⟨_, _, _, _, x_y_to_index_error h1⟩
  rcases exceptBindError h with h1 | ⟨j1, hj1, h⟩
  · exact ⟨_, _, _, _, x_y_to_index_error h1⟩
  rcases exceptBindError h with h1 | ⟨j2, hj2, h⟩
  · exact ⟨_, _, _, _, x_y_to_index_error h1⟩
  rcases exceptBindError h with h1 | ⟨j3, hj3, h⟩
  · exact ⟨_, _, _, _, x_y_to_index_error h1⟩
  rcases exceptBindError h with h1 | ⟨j4, hj4, h⟩
  · exact ⟨_, _, _, _, x_y_to_index_error h1⟩
  exact (exceptOk_ne_error h).elim

lemma edgeStep_error_xPos {x_res y_res : ℕ} {top bottom : List (Option Vertex)}
    {e : ℕ × ℕ} {er : LasToStlError}
    (h : xPosEdgeStep x_res y_res top bottom e = Except.error er) :
    isBadIndexError er := by
  unfold xPosEdgeStep at h
  rcases exceptBindError h with h1 | ⟨i1, hi1, h⟩
  · exact ⟨_, _, _, _, x_y_to_index_error h1⟩
  rcases exceptBindError h with h1 | ⟨i2, hi2, h⟩
  · exact ⟨_, _, _, _, x_y_to_index_error h1⟩
  rcases exceptBindError h with h1 | ⟨i3, hi3, h⟩
  · exact ⟨_, _, _, _, x_y_to_index_error h1⟩
  rcases exceptBindError h with h1 | ⟨i4, hi4, h⟩
  · exact ⟨_, _, _, _, x_y_to_index_error h1⟩
  exact (exceptOk_ne_error h).elim

lemma edgeStep_error_xNeg {x_res y_res : ℕ} {top bottom : List (Option Vertex)}
    {e : ℕ × ℕ} {er : LasToStlError}
    (h : xNegEdgeStep x_res y_res top bottom e = Except.error er) :
    isBadIndexError er := by
  unfold xNegEdgeStep at h
  rcases exceptBindError h with h1 | ⟨i1, hi1, h⟩
  · exact ⟨_, _, _, _, x_y_to_index_error h1⟩
  rcases exceptBindError h with h1 | ⟨i2, hi2, h⟩
  · exact ⟨_, _, _, _, x_y_to_index_error h1⟩
  rcases exceptBindError h with h1 | ⟨i3, hi3, h⟩
  · exact ⟨_, _, _, _, x_y_to_index_error h1⟩
  rcases exceptBindError h with h1 | ⟨i4, hi4, h⟩
  · exact ⟨_, _, _, _, x_y_to_index_error h1⟩
  exact (exceptOk_ne_error h).elim

lemma edgeStep_error_yPos {x_res y_res : ℕ} {top bottom : List (Option Vertex)}
    {e : ℕ × ℕ} {er : LasToStlError}
    (h : yPosEdgeStep x_res y_res top bottom e = Except.error er) :
    isBadIndexError er := by
  unfold yPosEdgeStep at h
  rcases exceptBindError h with h1 | ⟨i1, hi1, h⟩
  · exact ⟨_, _, _, _, x_y_to_index_error h1⟩
  rcases exceptBindError h with h1 | ⟨i2, hi2, h⟩
  · exact ⟨_, _, _, _, x_y_to_index_error h1⟩
  rcases exceptBindError h with h1 | ⟨i3, hi3, h⟩
  · exact ⟨_, _, _, _, x_y_to_index_error h1⟩
  rcases exceptBindError h with h1 | ⟨i4, hi4, h⟩
  · exact ⟨_, _, _, _, x_y_to_index_error h1⟩
  exact (exceptOk_ne_error h).elim

lemma edgeStep_error_yNeg {x_res y_res : ℕ} {top bottom : List (Option Vertex)}
    {e : ℕ × ℕ} {er : LasToStlError}
    (h : yNegEdgeStep x_res y_res top bottom e = Except.error er) :
    isBadIndexError er := by
  unfold yNegEdgeStep at h
  rcases exceptBindError h with h1 | ⟨i1, hi1, h⟩
  · exact ⟨_, _, _, _, x_y_to_index_error h1⟩
  rcases exceptBindError h with h1 | ⟨i2, hi2, h⟩
  · exact ⟨_, _, _, _, x_y_to_index_error h1⟩
  rcases exceptBindError h with h1 | ⟨i3, hi3, h⟩
  · exact ⟨_, _, _, _, x_y_to_index_error h1⟩
  rcases exceptBindError h with h1 | ⟨i4, hi4, h⟩
  · exact ⟨_, _, _, _, x_y_to_index_error h1⟩
  exact (exceptOk_ne_error h).elim

lemma extendLoop_error {f : ℕ → Except LasToStlError (List Triangle)} {n : ℕ}
    {er : LasToStlError}
    (hbody : ∀ i er2, f i = Except.error er2 → isBadIndexError er2)
    (h : extendLoop f n = Except.error er) : isBadIndexError er := by
  induction n with
  | zero => exact (exceptOk_ne_error h).elim
  | succ k ih =>
    rw [extendLoop] at h
    rcases exceptBindError h with h1 | ⟨acc, hacc, h⟩
    · exact ih h1
    rcases exceptBindError h with h1 | ⟨t, ht, h⟩
    · exact hbody k _ h1
    · exact (exceptOk_ne_error h).elim

lemma edgeFaceLoop_error {step : ℕ × ℕ → Except LasToStlError (Option (List Triangle))}
    {edges : List (ℕ × ℕ)} {er : LasToStlError}
    (hstep : ∀ e er2, step e = Except.error er2 → isBadIndexError er2)
    (h : edgeFaceLoop step edges = Except.error er) : isBadIndexError er := by
  induction edges with
  | nil => exact (exceptOk_ne_error h).elim
  | cons e rest ih =>
    rw [edgeFaceLoop] at h
    rcases exceptBindError h with h1 | ⟨o, ho, h⟩
    · exact hstep e _ h1
    rcases exceptBindError h with h1 | ⟨others, hothers, h⟩
    · exact ih h1
    · cases o <;> exact (exceptOk_ne_error h).elim

/-- C2 (amended): a side-wall loop whose every step resolves its indices
successfully returns success, emitting exactly the faces of the edges whose
four referenced vertices are present and skipping (not failing on) the edges
referencing an absent vertex; moreover `save_as_stl_masked` never returns
`StlSideFaceGenerationError` on any input. -/
theorem C2_masked_side_walls_skip_absent_vertices :
    (∀ (step : ℕ × ℕ → Except LasToStlError (Option (List Triangle)))
       (edges : List (ℕ × ℕ)),
      (∀ e ∈ edges, (step e).isOk = true) →
      edgeFaceLoop step edges = Except.ok ((edges.map (fun e =>
        match step e with
        | Except.ok (some faces) => faces
        | _ => [])).flatten)) ∧
    (∀ (hm : HeightMap) (mask : Mask) (z_scaling base_thickness : ℚ)
       (er : LasToStlError),
      hm.save_as_stl_masked_triangles mask z_scaling base_thickness = Except.error er →
      er ≠ LasToStlError.StlSideFaceGenerationError) := by
  constructor
  · intro step edges hok
    induction edges with
    | nil => simp [edgeFaceLoop]
    | cons e rest ih =>
      have hok_e := hok e (by simp)
      have hok_rest : ∀ e2 ∈ rest, (step e2).isOk = true :=
        fun e2 he2 => hok e2 (by simp [he2])
      rw [edgeFaceLoop]
      cases hstep : step e with
      | error er =>
        rw [hstep] at hok_e
        exact Bool.noConfusion hok_e
      | ok o =>
        rw [ih hok_rest]
        cases o with
        | some faces =>
          simp only [List.map_cons, List.flatten_cons, hstep]
          rfl
        | none =>
          simp only [List.map_cons, List.flatten_cons, hstep]
          rfl
  · intro hm mask z_scaling base_thickness er h
    simp only [HeightMap.save_as_stl_masked_triangles] at h
    rcases exceptBindError h with h1 | ⟨tb, htb, h⟩
    · exact isBadIndexError_ne_side (extendLoop_error
        (fun x er2 hx => extendLoop_error
          (fun y er3 hy => stlMaskedQuadBody_error hy) hx) h1)
    rcases exceptBindError h with h1 | ⟨east, heast, h⟩
    · exact isBadIndexError_ne_side (edgeFaceLoop_error
        (fun e er2 he => edgeStep_error_xPos he) h1)
    rcases exceptBindError h with h1 | ⟨west, hwest, h⟩
    · exact isBadIndexError_ne_side (edgeFaceLoop_error
        (fun e er2 he => edgeStep_error_xNeg he) h1)
    rcases exceptBindError h with h1 | ⟨north, hnorth, h⟩
    · exact isBadIndexError_ne_side (edgeFaceLoop_error
        (fun e er2 he => edgeStep_error_yPos he) h1)
    rcases exceptBindError h with h1 | ⟨south, hsouth, h⟩
    · exact isBadIndexError_ne_side (edgeFaceLoop_error
        (fun e er2 he => edgeStep_error_yNeg he) h1)
    · exact (exceptOk_ne_error h).elim

/-- Witness for C2: the amended theorem's loop characterization applied to
the concrete east loop of `C2_counterexample`, whose one flagged edge
references an absent vertex and contributes no face. -/
theorem C2_masked_side_walls_skip_absent_vertices_witness :
    (∀ e ∈ [((0 : ℕ), (0 : ℕ))], ((xPosEdgeStep 2 2 c2Top c2Bot) e).isOk = true) ∧
    edgeFaceLoop (xPosEdgeStep 2 2 c2Top c2Bot) [(0, 0)] =
      Except.ok (([((0 : ℕ), (0 : ℕ))].map (fun e =>
        match xPosEdgeStep 2 2 c2Top c2Bot e with
        | Except.ok (some faces) => faces
        | _ => [])).flatten) :=
  ⟨by decide,
    C2_masked_side_walls_skip_absent_vertices.1 (xPosEdgeStep 2 2 c2Top c2Bot)
      [(0, 0)] (by decide)⟩

end LasKml
